import Mathlib

/-!
Verification of the work-order intake pipeline of the `hank` repository.

The Python sources embedded here:
  * `backend/api/workorder_routes.py` — `create_work_order`, `process_uploads`
  * `backend/database/repos.py` — `CustomerRepository`, `VehicleRepository`,
    `WorkOrderRepository`
  * `backend/services/image.py` — `extract_vin_from_image`,
    `read_odometer_image`, `extract_license_from_image`
  * `backend/services/audio.py` — `transcribe_audio`
  * `backend/services/vehicle_info.py` — `get_year_make_model`

External I/O (HTTP calls, file writes) is modelled by oracle values supplied
as inputs; every Python `try`/`except` boundary is modelled explicitly.
Machine-level details (timestamps, logging via `print`) are dropped: no claim
mentions them.
-/

/-- Python truthiness of an optional string: `None` and `""` are falsy. -/
def tr (o : Option String) : Bool :=
  match o with
  | none => false
  | some s => s != ""

/-- Python whitespace (the characters `str.strip()` removes here). -/
def isPySpace (c : Char) : Bool :=
  c = ' ' || c = '\n' || c = '\t' || c = '\r'

/-- Python `s.strip()`. -/
def pyStrip (s : String) : String :=
  String.mk
    (((s.toList.dropWhile isPySpace).reverse.dropWhile isPySpace).reverse)

/-- Python `str(e)[:100]` — truncation of exception text to 100 characters. -/
def take100 (s : String) : String := String.mk (s.toList.take 100)

/-- Python `int(s)` on the strings produced by the odometer adapter: succeeds
exactly on (non-empty) digit strings, raises `ValueError` otherwise; a `none`
result models the raise. -/
def pyInt (s : String) : Option Nat :=
  if s.toList ≠ [] && s.toList.all Char.isDigit then
    some (s.toList.foldl (fun n c => 10 * n + (c.toNat - 48)) 0)
  else none

/-- Model of the `ValueError` text raised by `int(s)` (quotes omitted). -/
def intErrMsg (s : String) : String :=
  "invalid literal for int with base 10: " ++ s

/-- Python `sep.join(parts)`. -/
def pyJoin (sep : String) : List String → String
  | [] => ""
  | [a] => a
  | a :: b :: rest => a ++ sep ++ pyJoin sep (b :: rest)

/-- Python `s.split(maxsplit=1)`: leading whitespace skipped; the empty
list for a whitespace-only string; otherwise the first token, followed —
when anything remains after the separating whitespace — by the remainder
with its leading whitespace stripped.  Used for
`customer_name.split(maxsplit=1)` at workorder_routes.py line 316; the
subsequent `name_parts[0]` raises `IndexError` exactly when this list is
empty. -/
def pySplitMax1 (s : String) : List String :=
  let cs := s.toList.dropWhile isPySpace
  match cs with
  | [] => []
  | _ :: _ =>
    let tok := cs.takeWhile (fun c => !isPySpace c)
    let rest := (cs.dropWhile (fun c => !isPySpace c)).dropWhile isPySpace
    if rest.isEmpty then [String.mk tok]
    else [String.mk tok, String.mk rest]

/-! ## Extraction adapters (`services/image.py`, `services/audio.py`)

Each adapter performs one HTTP call; the call's outcome is an oracle input:
either an exception with a message, or a response with a status code and an
extracted body.  For the chat-completion and transcription endpoints the body
is `Option String`: `some content` when
`response.json()["choices"][0]["message"]["content"]` (resp. `["text"]`)
exists, `none` when the JSON is malformed so that indexing raises (inside the
adapter's own `try`, hence caught). -/

inductive HttpOutcome (β : Type) where
  | exn (msg : String)
  | resp (status : Nat) (body : β)
deriving DecidableEq, Repr

/-- Character class of the VIN regex `[A-HJ-NPR-Z0-9]`. -/
def vinChar (c : Char) : Bool :=
  (c.isUpper && c ≠ 'I' && c ≠ 'O' && c ≠ 'Q') || c.isDigit

/-- `re.search(r"[A-HJ-NPR-Z0-9]{17}", text)`: the first window of 17
consecutive VIN characters, if any. -/
def vinScanAux : List Char → Option String
  | [] => none
  | c :: rest =>
    if ((c :: rest).take 17).length = 17 && ((c :: rest).take 17).all vinChar then
      some (String.mk ((c :: rest).take 17))
    else vinScanAux rest

def vinScan (s : String) : Option String := vinScanAux s.toList

/-- Character class of the odometer regex `[0-9,]`. -/
def dcChar (c : Char) : Bool := c.isDigit || c = ','

/-- `re.search(r"[0-9,]+", text)`: greedy first run of digits and commas. -/
def dcScanAux : List Char → Option (List Char)
  | [] => none
  | c :: rest =>
    if dcChar c then some (c :: rest.takeWhile dcChar) else dcScanAux rest

/-- `extract_vin_from_image` (image.py lines 15-72): on HTTP 200, strip the
content and return the 17-character VIN match if present, else the raw
stripped text; empty string on any exception, non-200 status or malformed
response. -/
def extract_vin_from_image (o : HttpOutcome (Option String)) : String :=
  match o with
  | .exn _ => ""
  | .resp status body =>
    if status = 200 then
      match body with
      | none => ""
      | some content =>
        let vinText := pyStrip content
        match vinScan vinText with
        | some v => v
        | none => vinText
    else ""

/-- `read_odometer_image` (image.py lines 75-134): on HTTP 200, strip the
content; return the first digit/comma run with commas removed if one exists,
else the raw stripped text; empty string on failures. -/
def read_odometer_image (o : HttpOutcome (Option String)) : String :=
  match o with
  | .exn _ => ""
  | .resp status body =>
    if status = 200 then
      match body with
      | none => ""
      | some content =>
        let mileageText := pyStrip content
        match dcScanAux mileageText.toList with
        | some run => String.mk (run.filter (fun c => c ≠ ','))
        | none => mileageText
    else ""

/-- `extract_license_from_image` (image.py lines 137-188): on HTTP 200 the
stripped content, else empty.  (`workorder_routes.py` imports this adapter
under the name `read_plate_from_image`.) -/
def extract_license_from_image (o : HttpOutcome (Option String)) : String :=
  match o with
  | .exn _ => ""
  | .resp status body =>
    if status = 200 then
      match body with
      | none => ""
      | some content => pyStrip content
    else ""

/-- `transcribe_audio` (audio.py lines 7-28): on HTTP 200 the `"text"` field
of the response, else (non-200, malformed, exception) empty string. -/
def transcribe_audio (o : HttpOutcome (Option String)) : String :=
  match o with
  | .exn _ => ""
  | .resp status body =>
    if status = 200 then
      match body with
      | none => ""
      | some t => t
    else ""

/-! ## Vehicle-registry adapter (`services/vehicle_info.py`) -/

/-- One entry of the NHTSA `Results` array. -/
structure RegItem where
  varName : String
  varValue : Option String
deriving DecidableEq, Repr

/-- The year/make/model scan over `Results` (vehicle_info.py lines 18-32). -/
def ymmOfResults (items : List RegItem) :
    Option String × Option String × Option String :=
  items.foldl
    (fun acc item =>
      if item.varName = "Model Year" then (item.varValue, acc.2.1, acc.2.2)
      else if item.varName = "Make" then (acc.1, item.varValue, acc.2.2)
      else if item.varName = "Model" then (acc.1, acc.2.1, item.varValue)
      else acc)
    (none, none, none)

/-- Model of the `NameError` text raised at vehicle_info.py lines 11 and 37
(quotes omitted): the function constructs `VehicleInfo(...)`, but only
`VehicleBase` is imported and `VehicleInfo` is defined nowhere. -/
def nameErrorVehicleInfo : String := "name VehicleInfo is not defined"

/-- `get_year_make_model` (vehicle_info.py lines 4-42).  The registry
response oracle is `none` when the response is empty or lacks `"Results"`,
`some items` otherwise.  Both return statements (lines 11 and 37) construct
`VehicleInfo`, an undefined name, so the call always raises `NameError`
after (in the `some` case) scanning the results. -/
def get_year_make_model (resp : Option (List RegItem)) :
    Except String (List (String × String)) :=
  match resp with
  | none => .error nameErrorVehicleInfo
  | some items =>
    let _ymm := ymmOfResults items
    .error nameErrorVehicleInfo

/-! ## Data model and repositories (`database/repos.py`)

Records carry the fields the pipeline reads and writes.  The `VehicleDB`
schema itself is absent from the sources (`db.py` does not declare it, only
`repos.py` uses it); per spec §3 the vehicle `mileage` is numeric, so the
string odometer reading handed to `VehicleRepository.create` is parsed at
the persistence boundary (`none` when unparseable). -/

structure CustomerRec where
  id : String
  first_name : String
  last_name : String
  email : String
  phone : String
  address : String
  vehicles : List String
deriving DecidableEq, Repr

structure VehicleRec where
  id : String
  customer_id : Option String
  vin : Option String
  year : Option String
  make : Option String
  model : Option String
  mileage : Option Nat
  plate : Option String
deriving DecidableEq, Repr

/-- One line item of a synthesized summary (value object; contents opaque to
every claim). -/
structure LineItem where
  description : String
  itemType : String
  quantity : Int
  unit_price : Int
  totalPrice : Int
deriving DecidableEq, Repr

/-- The free-form `vehicle_info` JSON map, as an insertion-ordered
association list of string keys and values. -/
abbrev VehicleInfoMap := List (String × String)

/-- Python `d[k] = v` on a dict: replace in place if the key exists,
append otherwise. -/
def viSet (m : VehicleInfoMap) (k v : String) : VehicleInfoMap :=
  if (m.find? (fun p => p.1 = k)).isSome then
    m.map (fun p => if p.1 = k then (k, v) else p)
  else m ++ [(k, v)]

/-- Python `d.get(k)` on the map. -/
def viGet (m : VehicleInfoMap) (k : String) : Option String :=
  (m.find? (fun p => p.1 = k)).map (fun p => p.2)

/-- Python `k in d`. -/
def viHas (m : VehicleInfoMap) (k : String) : Bool :=
  (m.find? (fun p => p.1 = k)).isSome

structure WorkOrderRec where
  id : String
  customer_id : Option String
  customer_name : Option String
  vehicle_id : Option String
  vehicle_info : VehicleInfoMap
  work_summary : String
  line_items : List LineItem
  total_parts : Int
  total_labor : Int
  total : Int
  status : String
  processing_notes : List String
deriving DecidableEq, Repr

/-- The repository state: the three entity tables (rows in insertion order)
plus a counter from which fresh `uuid4` identifiers are drawn. -/
structure DB where
  customers : List CustomerRec
  vehicles : List VehicleRec
  workOrders : List WorkOrderRec
  nextId : Nat
deriving DecidableEq, Repr

/-- `str(uuid.uuid4())`: a fresh identifier, unique per draw. -/
def DB.freshId (db : DB) : String × DB :=
  ("uuid-" ++ toString db.nextId, { db with nextId := db.nextId + 1 })

namespace CustomerRepository

/-- `CustomerRepository.get_by_id` (repos.py lines 108-110). -/
def get_by_id (db : DB) (customer_id : String) : Option CustomerRec :=
  db.customers.find? (fun c => c.id = customer_id)

/-- `CustomerRepository.get_by_phone` (repos.py lines 112-114). -/
def get_by_phone (db : DB) (phone : String) : Option CustomerRec :=
  db.customers.find? (fun c => c.phone = phone)

/-- `CustomerRepository.get_by_email` (repos.py lines 116-118). -/
def get_by_email (db : DB) (email : String) : Option CustomerRec :=
  db.customers.find? (fun c => c.email = email)

/-- `CustomerRepository.create` (repos.py lines 68-77): insert the row and
return it (the caller always supplies the id). -/
def create (db : DB) (c : CustomerRec) : CustomerRec × DB :=
  (c, { db with customers := db.customers ++ [c] })

end CustomerRepository

/-- The field subset `VehicleRepository.update` receives from the pipeline
(workorder_routes.py lines 348-354): optionally a plate, optionally a
mileage. -/
structure VehPatch where
  plate : Option String
  mileage : Option Nat
deriving DecidableEq, Repr

/-- Python `if update_fields:` — the patch dict is non-empty. -/
def VehPatch.nonempty (p : VehPatch) : Bool :=
  p.plate.isSome || p.mileage.isSome

def VehPatch.apply (p : VehPatch) (v : VehicleRec) : VehicleRec :=
  { v with
    plate := match p.plate with | some s => some s | none => v.plate,
    mileage := match p.mileage with | some m => some m | none => v.mileage }

namespace VehicleRepository

/-- `VehicleRepository.get_by_id` (repos.py lines 177-179). -/
def get_by_id (db : DB) (vehicle_id : String) : Option VehicleRec :=
  db.vehicles.find? (fun v => v.id = vehicle_id)

/-- `VehicleRepository.get_by_vin` (repos.py lines 181-183): first row whose
`vin` column equals the key. -/
def get_by_vin (db : DB) (vin : String) : Option VehicleRec :=
  db.vehicles.find? (fun v => v.vin = some vin)

/-- `VehicleRepository.create` (repos.py lines 126-146): insert the row,
then append its id to the owning customer's `vehicles` list when a truthy
`customer_id` is present and the customer exists. -/
def create (db : DB) (v : VehicleRec) : VehicleRec × DB :=
  let db1 : DB := { db with vehicles := db.vehicles ++ [v] }
  let db2 : DB :=
    if tr v.customer_id then
      { db1 with customers := db1.customers.map (fun c =>
        if c.id = v.customer_id.getD "" then
          (if v.id ∈ c.vehicles then c
           else { c with vehicles := c.vehicles ++ [v.id] })
        else c) }
    else db1
  (v, db2)

/-- `VehicleRepository.update` (repos.py lines 148-165), specialised to the
field subset the pipeline passes. -/
def update (db : DB) (vehicle_id : String) (p : VehPatch) : DB :=
  { db with vehicles := db.vehicles.map (fun v =>
      if v.id = vehicle_id then p.apply v else v) }

end VehicleRepository

/-- A partial update of a work-order row: `none` fields are left untouched,
mirroring `setattr` over the keys of the update dict
(repos.py lines 204-220). -/
structure WoUpdate where
  customer_id : Option String
  vehicle_id : Option String
  vehicle_info : Option VehicleInfoMap
  work_summary : Option String
  line_items : Option (List LineItem)
  total_parts : Option Int
  total_labor : Option Int
  total : Option Int
  status : Option String
  processing_notes : Option (List String)
deriving DecidableEq, Repr

/-- The empty update dict. -/
def WoUpdate.none0 : WoUpdate :=
  ⟨none, none, none, none, none, none, none, none, none, none⟩

def WoUpdate.apply (u : WoUpdate) (w : WorkOrderRec) : WorkOrderRec :=
  { w with
    customer_id := match u.customer_id with | some s => some s | none => w.customer_id,
    vehicle_id := match u.vehicle_id with | some s => some s | none => w.vehicle_id,
    vehicle_info := u.vehicle_info.getD w.vehicle_info,
    work_summary := u.work_summary.getD w.work_summary,
    line_items := u.line_items.getD w.line_items,
    total_parts := u.total_parts.getD w.total_parts,
    total_labor := u.total_labor.getD w.total_labor,
    total := u.total.getD w.total,
    status := u.status.getD w.status,
    processing_notes := u.processing_notes.getD w.processing_notes }

namespace WorkOrderRepository

/-- `WorkOrderRepository.get_by_id` (repos.py lines 232-234). -/
def get_by_id (db : DB) (order_id : String) : Option WorkOrderRec :=
  db.workOrders.find? (fun w => w.id = order_id)

/-- `WorkOrderRepository.create` (repos.py lines 195-202). -/
def create (db : DB) (w : WorkOrderRec) : DB :=
  { db with workOrders := db.workOrders ++ [w] }

/-- `WorkOrderRepository.update` (repos.py lines 204-220): set the given
fields on the matching row (no-op when the order is absent). -/
def update (db : DB) (order_id : String) (u : WoUpdate) : DB :=
  { db with workOrders := db.workOrders.map (fun w =>
      if w.id = order_id then u.apply w else w) }

end WorkOrderRepository

/-! ## Pipeline orchestrator (`workorder_routes.py`, `process_uploads`)

Each image stage is parameterised by an oracle: whether the upload was
present (`content is not None`), whether the directory/file write inside the
stage's `try` raised, and the HTTP outcome of the adapter call.  The
adapters themselves never raise (their own `try` catches everything), so
within a stage the only exception sources are the file write and — for the
VIN stage — the registry decode call `get_year_make_model`. -/

structure ImgEnv where
  upload : Bool
  saveErr : Option String
  http : HttpOutcome (Option String)
deriving DecidableEq, Repr

structure VinEnv where
  upload : Bool
  saveErr : Option String
  http : HttpOutcome (Option String)
  registry : Option (List RegItem)
deriving DecidableEq, Repr

/-- Per-audio-clip oracle: presence of content and filename, a possible
exception while saving (caught per clip, lines 447-448; no note appended),
whether the saved file exists and is non-empty (line 441), and the
transcription call outcome. -/
structure ClipEnv where
  present : Bool
  saveErr : Option String
  saved : Bool
  http : HttpOutcome (Option String)
deriving DecidableEq, Repr

/-- Outcome of `generate_work_summary` as consumed through
`summary_data.get(...)` at lines 460-464 (the adapter never raises:
generate.py substitutes a zeroed payload on every failure). -/
structure SummaryData where
  work_summary : String
  line_items : List LineItem
  total_parts : Int
  total_labor : Int
  total : Int
deriving DecidableEq, Repr

/-- The whole run's oracle: the three image stages, the audio clips, a
possible exception from `os.makedirs` at line 415 (the only statement of the
body outside every inner `try`, hence uncaught), and the synthesis result. -/
structure RunEnv where
  vin : VinEnv
  odo : ImgEnv
  plate : ImgEnv
  clips : List ClipEnv
  audioDirErr : Option String
  summary : SummaryData
deriving DecidableEq, Repr

/-- The identifying fields passed to `process_uploads`. -/
structure RunInputs where
  orderId : String
  customerId : Option String
  customerName : Option String
  customerPhone : Option String
  customerEmail : Option String
deriving DecidableEq, Repr

/-- VIN stage (lines 210-240).  Returns the `vin` local (`none` = Python
`None`), the updated `vehicle_info` map, and the notes appended.  When
extraction succeeds, `vehicle_info["vin"]` is set (line 229) and then
`get_year_make_model` raises `NameError` (line 230), caught at line 238 —
so the "VIN decoded successfully" note of line 231 is unreachable and the
decoded year/make/model are never merged. -/
def vinStage (e : VinEnv) (vi : VehicleInfoMap) :
    Option String × VehicleInfoMap × List String :=
  if e.upload then
    match e.saveErr with
    | some m => (none, vi, ["VIN error: " ++ take100 m])
    | none =>
      let s := extract_vin_from_image e.http
      if s ≠ "" then
        let vi1 := viSet vi "vin" s
        match get_year_make_model e.registry with
        | .ok ymm =>
          (some s, ymm.foldl (fun m p => viSet m p.1 p.2) vi1,
           ["VIN image processed", "VIN decoded successfully"])
        | .error msg =>
          (some s, vi1, ["VIN image processed", "VIN error: " ++ take100 msg])
      else
        (some "", vi,
         ["VIN image processed", "VIN extraction failed - manual entry required"])
  else (none, vi, [])

/-- Odometer stage (lines 242-271). -/
def odoStage (e : ImgEnv) (vi : VehicleInfoMap) :
    Option String × VehicleInfoMap × List String :=
  if e.upload then
    match e.saveErr with
    | some m => (none, vi, ["Odometer error: " ++ take100 m])
    | none =>
      let s := read_odometer_image e.http
      if s ≠ "" then
        (some s, viSet vi "mileage" s, ["Odometer image processed"])
      else
        (some "", vi,
         ["Odometer image processed",
          "Odometer extraction failed - manual entry required"])
  else (none, vi, [])

/-- Plate stage (lines 273-294).  An empty extraction appends no
failure note: there is no `else` branch after `if plate:`. -/
def plateStage (e : ImgEnv) (vi : VehicleInfoMap) :
    Option String × VehicleInfoMap × List String :=
  if e.upload then
    match e.saveErr with
    | some m => (none, vi, ["Plate error: " ++ take100 m])
    | none =>
      let s := extract_license_from_image e.http
      if s ≠ "" then
        (some s, viSet vi "plate" s,
         ["Plate image processed", "Plate decoded successfully"])
      else
        (some "", vi, ["Plate image processed"])
  else (none, vi, [])

/-- Customer stage (lines 297-331).  When an existing customer is found by
phone or email, the code only enters `if customer.id is None:` — which is
never true for a row read from the database (ids are primary keys) — and in
particular never assigns `customer_id`; the branch is modelled as the
identity.  A new customer is created only when no match was found and a
name was supplied.  This block sits outside every `try`, and
`name_parts[0]` at line 317 raises `IndexError` when the truthy name is
whitespace-only (`split(maxsplit=1)` returns `[]`): that exception is
uncaught in the body, modelled as the `.error` result. -/
def customerStage (db : DB) (cid cname cphone cemail : Option String) :
    Except String (Option String × DB) :=
  if !tr cid && (tr cname || tr cphone || tr cemail) then
    let byPhone := if tr cphone then
        CustomerRepository.get_by_phone db (cphone.getD "") else none
    let found := match byPhone with
      | some c => some c
      | none => if tr cemail then
          CustomerRepository.get_by_email db (cemail.getD "") else none
    match found with
    | some _ => .ok (cid, db)
    | none =>
      if tr cname then
        match pySplitMax1 (cname.getD "") with
        | [] => .error "list index out of range"
        | first :: rest =>
          let fresh := db.freshId
          let created := CustomerRepository.create fresh.2
            { id := fresh.1, first_name := first,
              last_name := rest.headD "",
              email := cemail.getD "", phone := cphone.getD "",
              address := "", vehicles := [] }
          .ok (some created.1.id, created.2)
      else .ok (cid, db)
  else .ok (cid, db)

/-- Model of the `UnboundLocalError` text raised at line 388 when
`vehicle_data` was never assigned (quotes omitted; exact CPython wording is
version-dependent, no claim depends on it). -/
def unboundVehicleData : String :=
  "local variable vehicle_data referenced before assignment"

/-- Vehicle-resolution stage (lines 336-398).  Returns the `vehicle_id`
local, the repository state, and the notes appended.  Mirrors the source's
assignment order: in the found-branch `vehicle_id` is assigned (line 346)
before `int(odometer)` can raise (line 351), so the id survives the caught
exception; in the no-VIN branch the `vehicle_data` dict is only assigned
under `make or model` (lines 376-387) while the create call of line 388
sits outside that conditional, raising `UnboundLocalError` otherwise. -/
def vehicleStage (db : DB) (woVid cid vin odo plate : Option String)
    (vi : VehicleInfoMap) : Option String × DB × List String :=
  if !tr woVid && tr cid then
    if tr vin then
      match VehicleRepository.get_by_vin db (vin.getD "") with
      | some ev =>
        let platePatch : Option String := if tr plate then plate else none
        if tr odo then
          match pyInt (odo.getD "") with
          | none =>
            (some ev.id, db,
             ["Found existing vehicle",
              "Vehicle creation error: " ++ take100 (intErrMsg (odo.getD ""))])
          | some m =>
            let p : VehPatch :=
              { plate := platePatch,
                mileage := if m > ev.mileage.getD 0 then some m else none }
            let db2 := if p.nonempty then
                VehicleRepository.update db ev.id p else db
            (some ev.id, db2, ["Found existing vehicle"])
        else
          let p : VehPatch := { plate := platePatch, mileage := none }
          let db2 := if p.nonempty then
              VehicleRepository.update db ev.id p else db
          (some ev.id, db2, ["Found existing vehicle"])
      | none =>
        let fresh := db.freshId
        let created := VehicleRepository.create fresh.2
          { id := fresh.1, customer_id := cid, vin := vin,
            year := viGet vi "year", make := viGet vi "make",
            model := viGet vi "model",
            mileage := pyInt (odo.getD ""), plate := plate }
        (some created.1.id, created.2, ["Created new vehicle with partial info"])
    else
      if !vi.isEmpty && (tr (viGet vi "make") || tr (viGet vi "model")) then
        let fresh := db.freshId
        let created := VehicleRepository.create fresh.2
          { id := fresh.1, customer_id := cid, vin := none,
            year := viGet vi "year", make := viGet vi "make",
            model := viGet vi "model",
            mileage := (viGet vi "mileage").bind pyInt,
            plate := viGet vi "plate" }
        (some created.1.id, created.2, ["Created new vehicle with partial info"])
      else
        (woVid, db, ["Vehicle creation error: " ++ take100 unboundVehicleData])
  else (woVid, db, [])

/-- One audio clip's contribution to `all_transcripts` (lines 417-448):
skipped when content or filename is `None`, dropped silently on a save
exception or a missing/empty saved file, and otherwise the transcript when
it is non-empty. -/
def clipTranscript (c : ClipEnv) : Option String :=
  if c.present then
    match c.saveErr with
    | some _ => none
    | none =>
      if c.saved then
        let t := transcribe_audio c.http
        if t ≠ "" then some t else none
      else none
  else none

/-- The status reconciliation of lines 473-482.  Lines 473-476 assign
unconditionally, so the guard of line 478 (`"status" not in update_data or
update_data["status"] == "processing"`) can never hold; it is retained
verbatim. -/
def statusReconcile (viFinal : VehicleInfoMap) (vid : Option String) : String :=
  let st1 := if !viHas viFinal "vin" || !tr vid then "needs_review" else "processed"
  if st1 = "processing" then
    (if !viFinal.isEmpty && viHas viFinal "vin" then "processed" else "needs_review")
  else st1

/-- Whether the audio section's `os.makedirs` at line 415 — guarded by
`if audio_contents:` and outside every inner `try` — raises. -/
def audioRaises (env : RunEnv) : Bool :=
  !env.clips.isEmpty && env.audioDirErr.isSome

/-- Observable trace of one run, recording the values the claims speak
about.  `raised` marks the uncaught-exception path. -/
structure RunLog where
  found : Bool
  raised : Bool
  vin : Option String
  vehicleInfo : VehicleInfoMap
  customerId : Option String
  vehicleId : Option String
  transcripts : List String
  fullTranscript : String
  summaryCalled : Bool
  status : String
deriving DecidableEq, Repr

def RunLog.initial : RunLog :=
  ⟨false, false, none, [], none, none, [], "", false, "processing"⟩

/-- The run-start update dict of line 200: it replaces the notes column. -/
def runStartU : WoUpdate :=
  { WoUpdate.none0 with processing_notes := some ["Processing started..."] }

/-- Whether the run body hits an uncaught exception: the `IndexError` of
`name_parts[0]` in the bare customer block (lines 297-331, evaluated
against the repository state after the run-start update, whose
customer table is that of `db0`) or the `os.makedirs` of line 415. -/
def runRaises (env : RunEnv) (inp : RunInputs) (db0 : DB) : Bool :=
  (match customerStage (WorkOrderRepository.update db0 inp.orderId runStartU)
      inp.customerId inp.customerName inp.customerPhone inp.customerEmail with
   | .error _ => true
   | .ok _ => false) || audioRaises env

/-- The reference update dict of lines 401-407. -/
def refsU (cid vid : Option String) : WoUpdate :=
  { WoUpdate.none0 with
    customer_id := if tr cid then cid else none,
    vehicle_id := if tr vid then vid else none }

/-- The recovery update dict of lines 492-499. -/
def recoveryU (m : String) : WoUpdate :=
  { WoUpdate.none0 with
    status := some "needs_review",
    processing_notes := some ["Processing error: " ++ m] }

/-- The final update dict (`update_data`) as it stands at line 484: notes
always; the vehicle-info map when non-empty (line 333) or when a summary was
generated (line 459); the summary fields and totals when a summary was
generated; the reconciled status always (lines 473-482). -/
def finalU (notes : List String) (vi : VehicleInfoMap) (sd : SummaryData)
    (ts : List String) (st : String) : WoUpdate :=
  if !ts.isEmpty then
    { WoUpdate.none0 with
      processing_notes := some notes,
      vehicle_info := some vi,
      work_summary := some sd.work_summary,
      line_items := some sd.line_items,
      total_parts := some sd.total_parts,
      total_labor := some sd.total_labor,
      total := some sd.total,
      status := some st }
  else
    { WoUpdate.none0 with
      processing_notes := some notes,
      vehicle_info := if !vi.isEmpty then some vi else none,
      status := some st }

/-- Body of `process_uploads` (lines 190-485) for a fetched work order, up
to its outer `except`: either the final repository state and log, or an
uncaught exception together with the repository state at the moment it was
raised.  The exception check sits after the reference update and before the
audio loop, exactly where line 415 runs; nothing between is reordered. -/
def runCore (env : RunEnv) (inp : RunInputs) (wo : WorkOrderRec) (db0 : DB) :
    Except (String × DB) (DB × RunLog) :=
    -- line 200: the run-start update replaces the notes column
    let db1 := WorkOrderRepository.update db0 inp.orderId runStartU
    -- lines 204-207: `work_order` is the same session object, so after the
    -- update its notes read back as the replacement list
    let vi0 := wo.vehicle_info
    let notes0 : List String := ["Processing started..."]
    let r1 := vinStage env.vin vi0
    let vin := r1.1
    let vi1 := r1.2.1
    let n1 := r1.2.2
    let r2 := odoStage env.odo vi1
    let odo := r2.1
    let vi2 := r2.2.1
    let n2 := r2.2.2
    let r3 := plateStage env.plate vi2
    let plate := r3.1
    let vi3 := r3.2.1
    let n3 := r3.2.2
    -- lines 297-331: the bare customer block; its IndexError propagates to
    -- the outer handler with the repository still in the run-start state
    match customerStage db1 inp.customerId inp.customerName
      inp.customerPhone inp.customerEmail with
    | .error m => .error (m, db1)
    | .ok rc =>
      let cid := rc.1
      let db2 := rc.2
      -- lines 333-335
      let n4 : List String :=
        if !vi3.isEmpty then ["Saved partial vehicle info"] else []
      let rv := vehicleStage db2 wo.vehicle_id cid vin odo plate vi3
      let vid := rv.1
      let db3 := rv.2.1
      let n5 := rv.2.2
      -- lines 401-409: when neither id is truthy no update call is made;
      -- an update with the empty dict is the identity on the row
      -- (timestamps are not modelled), so both cases are one update with a
      -- conditional dict
      let db4 := WorkOrderRepository.update db3 inp.orderId
        (if tr cid || tr vid then refsU cid vid else WoUpdate.none0)
      let n6 : List String :=
        if tr cid || tr vid then ["Updated work order references"] else []
      let ts := env.clips.filterMap clipTranscript
      let full := pyJoin " " ts
      let notes := notes0 ++ n1 ++ n2 ++ n3 ++ n4 ++ n5 ++ n6
      -- lines 451-471 write a provisional status into `update_data`;
      -- lines 473-482 then overwrite it unconditionally, so only the
      -- reconciled value reaches the final update
      let st := statusReconcile vi3 vid
      let db5 := WorkOrderRepository.update db4 inp.orderId
        (finalU notes vi3 env.summary ts st)
      if audioRaises env then
        .error (env.audioDirErr.getD "", db4)
      else
        .ok (db5,
          { found := true, raised := false, vin := vin, vehicleInfo := vi3,
            customerId := cid, vehicleId := vid, transcripts := ts,
            fullTranscript := full, summaryCalled := !ts.isEmpty,
            status := st })

/-- `process_uploads` (lines 172-504): fetch the work order (early return
when absent, lines 195-198), run the body; on an uncaught exception the
recovery handler (lines 487-499) sets `needs_review` and replaces the notes
with a single error note. -/
def process_uploads (env : RunEnv) (inp : RunInputs) (db0 : DB) :
    DB × RunLog :=
  match WorkOrderRepository.get_by_id db0 inp.orderId with
  | none => (db0, RunLog.initial)
  | some wo =>
    match runCore env inp wo db0 with
    | .ok r => r
    | .error (m, db) =>
      let log : RunLog :=
        { RunLog.initial with
          found := true, raised := true, status := "needs_review" }
      (WorkOrderRepository.update db inp.orderId (recoveryU m), log)

/-! ## Intake coordinator (`workorder_routes.py`, `create_work_order`) -/

/-- Intake oracle: the fresh order id (`uuid.uuid4()`) and whether the
`WorkOrderRepository.create` call of line 111 raises. -/
structure IntakeEnv where
  newOrderId : String
  createErr : Option String
deriving DecidableEq, Repr

/-- The request: uploaded payloads (opaque byte strings paired with their
filenames; `none` entries model `None` items of `audio_files`) and the
optional identifying form fields. -/
structure IntakeInputs where
  audioFiles : List (Option (String × String))
  vinImage : Option (String × String)
  odometerImage : Option (String × String)
  plateImage : Option (String × String)
  customerId : Option String
  customerName : Option String
  customerPhone : Option String
  customerEmail : Option String
  vehicleId : Option String
deriving DecidableEq, Repr

/-- The argument tuple handed to `background_tasks.add_task` at lines
145-162: copies of all payload bytes and the identifying fields. -/
structure TaskArgs where
  orderId : String
  audioContents : List (Option String)
  audioFilenames : List (Option String)
  vinContent : Option String
  odometerContent : Option String
  plateContent : Option String
  customerId : Option String
  customerName : Option String
  customerPhone : Option String
  customerEmail : Option String
deriving DecidableEq, Repr

/-- Result of the synchronous intake call: either an HTTP error (status
code, detail) or the new order id returned to the caller, alongside the
repository state and the scheduled — not yet executed — background task. -/
structure IntakeResult where
  response : Except (Nat × String) String
  db : DB
  task : Option TaskArgs
deriving Repr

/-- `create_work_order` (lines 56-169).  The body runs inside one `try`
whose handler re-raises any exception as an HTTP 500 error, so a failed
customer/vehicle verification or a failed persist each aborts the whole
operation before `background_tasks.add_task` is reached; payload bytes are
read (lines 113-142) only after a successful persist, and the task is
scheduled with the byte copies, never awaited. -/
def create_work_order (env : IntakeEnv) (inp : IntakeInputs) (db : DB) :
    IntakeResult :=
  let verifyCustomer : Except (Nat × String) (Option String × Option String) :=
    if tr inp.customerId then
      match CustomerRepository.get_by_id db (inp.customerId.getD "") with
      | none => .error (500, "404: Customer not found")
      | some c => .ok (inp.customerId, some (c.first_name ++ " " ++ c.last_name))
    else .ok (none, none)
  match verifyCustomer with
  | .error e => { response := .error e, db := db, task := none }
  | .ok (cid, cname) =>
    let verifyVehicle : Except (Nat × String) (Option String) :=
      if tr inp.vehicleId then
        match VehicleRepository.get_by_id db (inp.vehicleId.getD "") with
        | none => .error (500, "404: Vehicle not found")
        | some _ => .ok inp.vehicleId
      else .ok none
    match verifyVehicle with
    | .error e => { response := .error e, db := db, task := none }
    | .ok vid =>
      match env.createErr with
      | some m => { response := .error (500, m), db := db, task := none }
      | none =>
        let wo : WorkOrderRec :=
          { id := env.newOrderId, customer_id := cid, customer_name := cname,
            vehicle_id := vid, vehicle_info := [],
            work_summary := "Processing audio...", line_items := [],
            total_parts := 0, total_labor := 0, total := 0,
            status := "processing",
            processing_notes :=
              ["Work order created, processing media files..."] }
        let db1 := WorkOrderRepository.create db wo
        let task : TaskArgs :=
          { orderId := env.newOrderId,
            audioContents := inp.audioFiles.map (Option.map Prod.fst),
            audioFilenames := inp.audioFiles.map (Option.map Prod.snd),
            vinContent := inp.vinImage.map Prod.fst,
            odometerContent := inp.odometerImage.map Prod.fst,
            plateContent := inp.plateImage.map Prod.fst,
            customerId := inp.customerId, customerName := inp.customerName,
            customerPhone := inp.customerPhone,
            customerEmail := inp.customerEmail }
        { response := .ok env.newOrderId, db := db1, task := some task }

/-! ## Repository access lemmas -/

theorem find?_map_ite {α : Type} (g : α → α) (key : α → String) (k : String)
    (hg : ∀ a, key (g a) = key a) (l : List α) :
    (l.map (fun a => if key a = k then g a else a)).find? (fun a => key a = k)
      = (l.find? (fun a => key a = k)).map g := by
  induction l with
  | nil => rfl
  | cons a t ih =>
    by_cases h : key a = k
    · simp [h, hg]
    · simp [h, ih]

theorem woUpdate_apply_id (u : WoUpdate) (w : WorkOrderRec) :
    (u.apply w).id = w.id := rfl

theorem getWO_update (db : DB) (oid : String) (u : WoUpdate) :
    WorkOrderRepository.get_by_id (WorkOrderRepository.update db oid u) oid
      = (WorkOrderRepository.get_by_id db oid).map u.apply := by
  unfold WorkOrderRepository.get_by_id WorkOrderRepository.update
  exact find?_map_ite u.apply (fun w => w.id) oid (fun a => rfl) db.workOrders

theorem vehPatch_apply_id (p : VehPatch) (v : VehicleRec) :
    (p.apply v).id = v.id := rfl

theorem getVeh_update (db : DB) (vid : String) (p : VehPatch) :
    VehicleRepository.get_by_id (VehicleRepository.update db vid p) vid
      = (VehicleRepository.get_by_id db vid).map p.apply := by
  unfold VehicleRepository.get_by_id VehicleRepository.update
  exact find?_map_ite p.apply (fun v => v.id) vid (fun a => rfl) db.vehicles

theorem getWO_congr (db db' : DB) (oid : String)
    (h : db.workOrders = db'.workOrders) :
    WorkOrderRepository.get_by_id db oid
      = WorkOrderRepository.get_by_id db' oid := by
  unfold WorkOrderRepository.get_by_id
  rw [h]

theorem customerStage_ok_workOrders (db : DB)
    (cid cname cphone cemail : Option String) (rc : Option String × DB)
    (h : customerStage db cid cname cphone cemail = .ok rc) :
    rc.2.workOrders = db.workOrders := by
  unfold customerStage CustomerRepository.create DB.freshId at h
  dsimp only at h
  repeat' split at h
  all_goals cases h
  all_goals rfl

theorem vehCreate_workOrders (db : DB) (v : VehicleRec) :
    (VehicleRepository.create db v).2.workOrders = db.workOrders := by
  unfold VehicleRepository.create
  dsimp only
  split
  all_goals rfl

theorem vehicleStage_workOrders (db : DB) (woVid cid vin odo plate : Option String)
    (vi : VehicleInfoMap) :
    (vehicleStage db woVid cid vin odo plate vi).2.1.workOrders = db.workOrders := by
  unfold vehicleStage VehicleRepository.create VehicleRepository.update DB.freshId
  dsimp only
  repeat' split
  all_goals rfl

theorem getWO_vehicleStage (db : DB) (a b c d e : Option String)
    (vi : VehicleInfoMap) (oid : String) :
    WorkOrderRepository.get_by_id (vehicleStage db a b c d e vi).2.1 oid
      = WorkOrderRepository.get_by_id db oid :=
  getWO_congr _ _ _ (vehicleStage_workOrders db a b c d e vi)

/-- The reconciled status, rephrased: `processed` exactly when the map has a
`"vin"` key and a truthy vehicle id is linked. -/
theorem statusReconcile_eq (vi : VehicleInfoMap) (vid : Option String) :
    statusReconcile vi vid
      = if viHas vi "vin" && tr vid then "processed" else "needs_review" := by
  unfold statusReconcile
  cases h1 : viHas vi "vin" <;> cases h2 : tr vid <;> simp [h1, h2]

theorem statusReconcile_ne (vi : VehicleInfoMap) (vid : Option String) :
    statusReconcile vi vid ≠ "processing" := by
  rw [statusReconcile_eq]
  split
  · decide
  · decide

/-- The work-order row as the run leaves it: the same update sequence as
`runCore`, restricted to the single row it touches.  `run_getWO` below
proves that `process_uploads` leaves exactly this row in the repository. -/
def runRecord (env : RunEnv) (inp : RunInputs) (wo : WorkOrderRec) (db0 : DB) :
    WorkOrderRec :=
  let db1 := WorkOrderRepository.update db0 inp.orderId runStartU
  let r1 := vinStage env.vin wo.vehicle_info
  let vin := r1.1
  let vi1 := r1.2.1
  let n1 := r1.2.2
  let r2 := odoStage env.odo vi1
  let odo := r2.1
  let vi2 := r2.2.1
  let n2 := r2.2.2
  let r3 := plateStage env.plate vi2
  let plate := r3.1
  let vi3 := r3.2.1
  let n3 := r3.2.2
  let w1 := runStartU.apply wo
  match customerStage db1 inp.customerId inp.customerName
    inp.customerPhone inp.customerEmail with
  | .error m => (recoveryU m).apply w1
  | .ok rc =>
    let cid := rc.1
    let db2 := rc.2
    let n4 : List String := if !vi3.isEmpty then ["Saved partial vehicle info"] else []
    let rv := vehicleStage db2 wo.vehicle_id cid vin odo plate vi3
    let vid := rv.1
    let n5 := rv.2.2
    let n6 : List String :=
      if tr cid || tr vid then ["Updated work order references"] else []
    let ts := env.clips.filterMap clipTranscript
    let notes := ["Processing started..."] ++ n1 ++ n2 ++ n3 ++ n4 ++ n5 ++ n6
    let st := statusReconcile vi3 vid
    let w4 := (if tr cid || tr vid then refsU cid vid else WoUpdate.none0).apply w1
    if audioRaises env then (recoveryU (env.audioDirErr.getD "")).apply w4
    else (finalU notes vi3 env.summary ts st).apply w4

/-- Master record lemma: after a run, the work-order row is `runRecord`. -/
theorem run_getWO (env : RunEnv) (inp : RunInputs) (db0 : DB)
    (wo : WorkOrderRec)
    (hwo : WorkOrderRepository.get_by_id db0 inp.orderId = some wo) :
    WorkOrderRepository.get_by_id (process_uploads env inp db0).1 inp.orderId
      = some (runRecord env inp wo db0) := by
  unfold process_uploads
  rw [hwo]
  unfold runCore runRecord
  dsimp only
  cases hcs : customerStage (WorkOrderRepository.update db0 inp.orderId runStartU)
      inp.customerId inp.customerName inp.customerPhone inp.customerEmail with
  | error m =>
    dsimp only
    rw [getWO_update, getWO_update, hwo]
    rfl
  | ok rc =>
    dsimp only
    by_cases hr : audioRaises env = true
    · simp only [hr, if_true]
      rw [getWO_update, getWO_update, getWO_vehicleStage,
        getWO_congr _ _ _ (customerStage_ok_workOrders _ _ _ _ _ _ hcs),
        getWO_update, hwo]
      rfl
    · simp only [Bool.not_eq_true] at hr
      simp only [hr, Bool.false_eq_true, if_false]
      rw [getWO_update, getWO_update, getWO_vehicleStage,
        getWO_congr _ _ _ (customerStage_ok_workOrders _ _ _ _ _ _ hcs),
        getWO_update, hwo]
      rfl

/-- Master log lemma for runs without an uncaught exception: the observable
trace written out in terms of the stage functions. -/
theorem run_log_ok (env : RunEnv) (inp : RunInputs) (db0 : DB)
    (wo : WorkOrderRec) (rc : Option String × DB)
    (hwo : WorkOrderRepository.get_by_id db0 inp.orderId = some wo)
    (hcs : customerStage (WorkOrderRepository.update db0 inp.orderId runStartU)
      inp.customerId inp.customerName inp.customerPhone inp.customerEmail
        = .ok rc)
    (haud : audioRaises env = false) :
    (process_uploads env inp db0).2 =
      { found := true, raised := false,
        vin := (vinStage env.vin wo.vehicle_info).1,
        vehicleInfo :=
          (plateStage env.plate
            (odoStage env.odo (vinStage env.vin wo.vehicle_info).2.1).2.1).2.1,
        customerId := rc.1,
        vehicleId :=
          (vehicleStage rc.2 wo.vehicle_id rc.1
            (vinStage env.vin wo.vehicle_info).1
            (odoStage env.odo (vinStage env.vin wo.vehicle_info).2.1).1
            (plateStage env.plate
              (odoStage env.odo (vinStage env.vin wo.vehicle_info).2.1).2.1).1
            (plateStage env.plate
              (odoStage env.odo (vinStage env.vin wo.vehicle_info).2.1).2.1).2.1).1,
        transcripts := env.clips.filterMap clipTranscript,
        fullTranscript := pyJoin " " (env.clips.filterMap clipTranscript),
        summaryCalled := !(env.clips.filterMap clipTranscript).isEmpty,
        status :=
          statusReconcile
            (plateStage env.plate
              (odoStage env.odo (vinStage env.vin wo.vehicle_info).2.1).2.1).2.1
            (vehicleStage rc.2 wo.vehicle_id rc.1
              (vinStage env.vin wo.vehicle_info).1
              (odoStage env.odo (vinStage env.vin wo.vehicle_info).2.1).1
              (plateStage env.plate
                (odoStage env.odo (vinStage env.vin wo.vehicle_info).2.1).2.1).1
              (plateStage env.plate
                (odoStage env.odo (vinStage env.vin wo.vehicle_info).2.1).2.1).2.1).1 } := by
  unfold process_uploads
  rw [hwo]
  unfold runCore
  dsimp only
  rw [hcs]
  dsimp only
  simp only [haud, Bool.false_eq_true, if_false]

/-! ## Concrete fixtures used by witnesses and counterexamples -/

def fxNoImg : ImgEnv := ⟨false, none, .exn "net"⟩

def fxNoVin : VinEnv := ⟨false, none, .exn "net", none⟩

def fxSummary : SummaryData := ⟨"", [], 0, 0, 0⟩

/-- A run with no uploads at all. -/
def fxEnvQuiet : RunEnv := ⟨fxNoVin, fxNoImg, fxNoImg, [], none, fxSummary⟩

/-- A freshly created work-order row, as `create_work_order` persists it. -/
def fxWo (oid : String) : WorkOrderRec :=
  ⟨oid, none, none, none, [], "Processing audio...", [], 0, 0, 0,
   "processing", ["Work order created, processing media files..."]⟩

def fxDb1 : DB := ⟨[], [], [fxWo "wo1"], 0⟩

def fxInp1 : RunInputs := ⟨"wo1", none, none, none, none⟩

/-- **C1** — For every background pipeline run, the final status written to
the work order is: `needs_review` on an uncaught exception; otherwise
`needs_review` when the vehicle-attributes map has no `"vin"` entry or no
vehicle id was linked, `processed` otherwise; and the run never leaves the
order in `processing`. -/
theorem C1_final_status_reconciliation (env : RunEnv) (inp : RunInputs)
    (db0 : DB) (wo : WorkOrderRec)
    (hwo : WorkOrderRepository.get_by_id db0 inp.orderId = some wo) :
    ∃ w, WorkOrderRepository.get_by_id (process_uploads env inp db0).1
        inp.orderId = some w ∧
      w.status ≠ "processing" ∧
      (runRaises env inp db0 = true → w.status = "needs_review") ∧
      (runRaises env inp db0 = false →
        w.status =
          if viHas (process_uploads env inp db0).2.vehicleInfo "vin"
              && tr (process_uploads env inp db0).2.vehicleId
          then "processed" else "needs_review") := by
  refine ⟨runRecord env inp wo db0, run_getWO env inp db0 wo hwo, ?_, ?_, ?_⟩
  · unfold runRecord
    dsimp only
    cases hcs : customerStage (WorkOrderRepository.update db0 inp.orderId runStartU)
        inp.customerId inp.customerName inp.customerPhone inp.customerEmail with
    | error m =>
      show ("needs_review" : String) ≠ "processing"
      decide
    | ok rc =>
      dsimp only
      by_cases hr : audioRaises env = true
      · simp only [hr, if_true]
        show ("needs_review" : String) ≠ "processing"
        decide
      · simp only [Bool.not_eq_true] at hr
        simp only [hr, Bool.false_eq_true, if_false]
        unfold finalU
        split
        · exact statusReconcile_ne _ _
        · exact statusReconcile_ne _ _
  · intro hraise
    unfold runRecord
    dsimp only
    cases hcs : customerStage (WorkOrderRepository.update db0 inp.orderId runStartU)
        inp.customerId inp.customerName inp.customerPhone inp.customerEmail with
    | error m => rfl
    | ok rc =>
      have haud : audioRaises env = true := by
        unfold runRaises at hraise
        rw [hcs] at hraise
        simpa using hraise
      dsimp only
      simp only [haud, if_true]
      rfl
  · intro hok
    cases hcs : customerStage (WorkOrderRepository.update db0 inp.orderId runStartU)
        inp.customerId inp.customerName inp.customerPhone inp.customerEmail with
    | error m =>
      exfalso
      unfold runRaises at hok
      rw [hcs] at hok
      simp at hok
    | ok rc =>
      have haud : audioRaises env = false := by
        unfold runRaises at hok
        rw [hcs] at hok
        simpa using hok
      rw [run_log_ok env inp db0 wo rc hwo hcs haud]
      unfold runRecord
      dsimp only
      rw [hcs]
      dsimp only
      simp only [haud, Bool.false_eq_true, if_false]
      unfold finalU
      split
      · exact statusReconcile_eq _ _
      · exact statusReconcile_eq _ _

/-- Witness for C1: a concrete quiet run on a fresh work order terminates in
`needs_review` (no VIN, no vehicle), not `processing`. -/
theorem C1_final_status_reconciliation_witness :
    ∃ w, WorkOrderRepository.get_by_id
        (process_uploads fxEnvQuiet fxInp1 fxDb1).1 fxInp1.orderId = some w ∧
      w.status ≠ "processing" ∧
      (runRaises fxEnvQuiet fxInp1 fxDb1 = true → w.status = "needs_review") ∧
      (runRaises fxEnvQuiet fxInp1 fxDb1 = false →
        w.status =
          if viHas (process_uploads fxEnvQuiet fxInp1 fxDb1).2.vehicleInfo "vin"
              && tr (process_uploads fxEnvQuiet fxInp1 fxDb1).2.vehicleId
          then "processed" else "needs_review") :=
  C1_final_status_reconciliation fxEnvQuiet fxInp1 fxDb1 (fxWo "wo1") (by decide)

/-! ## C2 — registry decode (Jane Doe scenario of spec §8) -/

/-- The §8 Jane Doe intake: one VIN photo, customer name only. -/
def fxJaneIntake : IntakeInputs :=
  { audioFiles := [], vinImage := some ("vinbytes", "vin.jpg"),
    odometerImage := none, plateImage := none,
    customerId := none, customerName := some "Jane Doe",
    customerPhone := none, customerEmail := none, vehicleId := none }

def fxJaneDb : DB :=
  (create_work_order ⟨"wo1", none⟩ fxJaneIntake ⟨[], [], [], 0⟩).db

/-- The §8 run oracle: the VIN photo reads `1HGCM82633A004352` and the
registry would decode `{year: 2003, make: Honda, model: Accord}`. -/
def fxJaneEnv : RunEnv :=
  { vin := ⟨true, none, .resp 200 (some "1HGCM82633A004352"),
      some [⟨"Model Year", some "2003"⟩, ⟨"Make", some "Honda"⟩,
            ⟨"Model", some "Accord"⟩]⟩,
    odo := fxNoImg, plate := fxNoImg, clips := [], audioDirErr := none,
    summary := fxSummary }

def fxJaneInp : RunInputs :=
  ⟨"wo1", none, some "Jane Doe", none, none⟩

/-- **C2** (code-bug evidence) — In the §8 scenario the VIN is extracted and
stored, but the decoded year/make/model never reach the map: the call path
`vehicle_info.update(await get_year_make_model(vin))` raises `NameError`
(`VehicleInfo` is undefined in `services/vehicle_info.py`), the exception is
caught as a `VIN error` note, and the final map holds only `vin`, contrary
to the claim that it holds `vin`, `year`, `make` and `model`. -/
theorem C2_registry_merge_bug :
    ∃ w, WorkOrderRepository.get_by_id
        (process_uploads fxJaneEnv fxJaneInp fxJaneDb).1 "wo1" = some w ∧
      viGet w.vehicle_info "vin" = some "1HGCM82633A004352" ∧
      viGet w.vehicle_info "year" = none ∧
      viGet w.vehicle_info "make" = none ∧
      viGet w.vehicle_info "model" = none ∧
      ("VIN error: " ++ take100 nameErrorVehicleInfo) ∈ w.processing_notes ∧
      w.status = "processed" := by decide

/-! ## C3 — processing notes across the run's writes -/

/-- **C3** counterexample — the note written at creation is not preserved:
the run-start update of line 200 replaces the notes column, so after a
concrete quiet run the creation note is gone from the stored list. -/
theorem C3_counterexample_creation_note_dropped :
    "Work order created, processing media files..."
        ∈ (fxWo "wo1").processing_notes ∧
    ∃ w, WorkOrderRepository.get_by_id
        (process_uploads fxEnvQuiet fxInp1 fxDb1).1 "wo1" = some w ∧
      "Work order created, processing media files..." ∉ w.processing_notes := by
  decide

/-- **C3** (amended) — Note handling as the code performs it: the run-start
update replaces the stored list with the single note `Processing
started...`; from there the accumulated list is append-only across every
stage, so a run without an uncaught exception ends with exactly `Processing
started...` followed by the VIN-stage, odometer-stage, plate-stage,
partial-info, vehicle-resolution and reference-update note lists, each
appended in stage order; an uncaught exception (the `IndexError` of the
customer block or the audio `os.makedirs` failure) makes the recovery
update replace the whole list with one `Processing error:` note. -/
theorem C3_amended_note_handling (env : RunEnv) (inp : RunInputs) (db0 : DB)
    (wo : WorkOrderRec)
    (hwo : WorkOrderRepository.get_by_id db0 inp.orderId = some wo) :
    ∃ w, WorkOrderRepository.get_by_id (process_uploads env inp db0).1
        inp.orderId = some w ∧
      (runRaises env inp db0 = true →
        ∃ m, w.processing_notes = ["Processing error: " ++ m]) ∧
      (runRaises env inp db0 = false →
        ∃ rc, customerStage
            (WorkOrderRepository.update db0 inp.orderId runStartU)
            inp.customerId inp.customerName inp.customerPhone
            inp.customerEmail = .ok rc ∧
          w.processing_notes =
            ["Processing started..."]
              ++ (vinStage env.vin wo.vehicle_info).2.2
              ++ (odoStage env.odo
                    (vinStage env.vin wo.vehicle_info).2.1).2.2
              ++ (plateStage env.plate (odoStage env.odo
                    (vinStage env.vin wo.vehicle_info).2.1).2.1).2.2
              ++ (if !(plateStage env.plate (odoStage env.odo
                      (vinStage env.vin wo.vehicle_info).2.1).2.1).2.1.isEmpty
                  then ["Saved partial vehicle info"] else [])
              ++ (vehicleStage rc.2 wo.vehicle_id rc.1
                    (vinStage env.vin wo.vehicle_info).1
                    (odoStage env.odo
                      (vinStage env.vin wo.vehicle_info).2.1).1
                    (plateStage env.plate (odoStage env.odo
                      (vinStage env.vin wo.vehicle_info).2.1).2.1).1
                    (plateStage env.plate (odoStage env.odo
                      (vinStage env.vin wo.vehicle_info).2.1).2.1).2.1).2.2
              ++ (if tr rc.1 || tr (vehicleStage rc.2 wo.vehicle_id rc.1
                    (vinStage env.vin wo.vehicle_info).1
                    (odoStage env.odo
                      (vinStage env.vin wo.vehicle_info).2.1).1
                    (plateStage env.plate (odoStage env.odo
                      (vinStage env.vin wo.vehicle_info).2.1).2.1).1
                    (plateStage env.plate (odoStage env.odo
                      (vinStage env.vin wo.vehicle_info).2.1).2.1).2.1).1
                  then ["Updated work order references"] else [])) := by
  refine ⟨runRecord env inp wo db0, run_getWO env inp db0 wo hwo, ?_, ?_⟩
  · intro hraise
    unfold runRecord
    dsimp only
    cases hcs : customerStage (WorkOrderRepository.update db0 inp.orderId runStartU)
        inp.customerId inp.customerName inp.customerPhone inp.customerEmail with
    | error m => exact ⟨m, rfl⟩
    | ok rc =>
      have haud : audioRaises env = true := by
        unfold runRaises at hraise
        rw [hcs] at hraise
        simpa using hraise
      dsimp only
      simp only [haud, if_true]
      exact ⟨env.audioDirErr.getD "", rfl⟩
  · intro hok
    unfold runRecord
    dsimp only
    cases hcs : customerStage (WorkOrderRepository.update db0 inp.orderId runStartU)
        inp.customerId inp.customerName inp.customerPhone inp.customerEmail with
    | error m =>
      exfalso
      unfold runRaises at hok
      rw [hcs] at hok
      simp at hok
    | ok rc =>
      have haud : audioRaises env = false := by
        unfold runRaises at hok
        rw [hcs] at hok
        simpa using hok
      refine ⟨rc, rfl, ?_⟩
      dsimp only
      simp only [haud, Bool.false_eq_true, if_false]
      unfold finalU
      split
      · rfl
      · rfl

/-- Witness for the amended C3: every note list component evaluated on the
concrete quiet run. -/
theorem C3_amended_note_handling_witness :
    ∃ w, WorkOrderRepository.get_by_id
        (process_uploads fxEnvQuiet fxInp1 fxDb1).1 fxInp1.orderId = some w ∧
      (runRaises fxEnvQuiet fxInp1 fxDb1 = true →
        ∃ m, w.processing_notes = ["Processing error: " ++ m]) ∧
      (runRaises fxEnvQuiet fxInp1 fxDb1 = false →
        ∃ rc, customerStage
            (WorkOrderRepository.update fxDb1 fxInp1.orderId runStartU)
            fxInp1.customerId fxInp1.customerName fxInp1.customerPhone
            fxInp1.customerEmail = .ok rc ∧
          w.processing_notes =
            ["Processing started..."]
              ++ (vinStage fxEnvQuiet.vin (fxWo "wo1").vehicle_info).2.2
              ++ (odoStage fxEnvQuiet.odo
                    (vinStage fxEnvQuiet.vin (fxWo "wo1").vehicle_info).2.1).2.2
              ++ (plateStage fxEnvQuiet.plate (odoStage fxEnvQuiet.odo
                    (vinStage fxEnvQuiet.vin
                      (fxWo "wo1").vehicle_info).2.1).2.1).2.2
              ++ (if !(plateStage fxEnvQuiet.plate (odoStage fxEnvQuiet.odo
                      (vinStage fxEnvQuiet.vin
                        (fxWo "wo1").vehicle_info).2.1).2.1).2.1.isEmpty
                  then ["Saved partial vehicle info"] else [])
              ++ (vehicleStage rc.2 (fxWo "wo1").vehicle_id rc.1
                    (vinStage fxEnvQuiet.vin (fxWo "wo1").vehicle_info).1
                    (odoStage fxEnvQuiet.odo
                      (vinStage fxEnvQuiet.vin
                        (fxWo "wo1").vehicle_info).2.1).1
                    (plateStage fxEnvQuiet.plate (odoStage fxEnvQuiet.odo
                      (vinStage fxEnvQuiet.vin
                        (fxWo "wo1").vehicle_info).2.1).2.1).1
                    (plateStage fxEnvQuiet.plate (odoStage fxEnvQuiet.odo
                      (vinStage fxEnvQuiet.vin
                        (fxWo "wo1").vehicle_info).2.1).2.1).2.1).2.2
              ++ (if tr rc.1 || tr (vehicleStage rc.2 (fxWo "wo1").vehicle_id rc.1
                    (vinStage fxEnvQuiet.vin (fxWo "wo1").vehicle_info).1
                    (odoStage fxEnvQuiet.odo
                      (vinStage fxEnvQuiet.vin
                        (fxWo "wo1").vehicle_info).2.1).1
                    (plateStage fxEnvQuiet.plate (odoStage fxEnvQuiet.odo
                      (vinStage fxEnvQuiet.vin
                        (fxWo "wo1").vehicle_info).2.1).2.1).1
                    (plateStage fxEnvQuiet.plate (odoStage fxEnvQuiet.odo
                      (vinStage fxEnvQuiet.vin
                        (fxWo "wo1").vehicle_info).2.1).2.1).2.1).1
                  then ["Updated work order references"] else [])) :=
  C3_amended_note_handling fxEnvQuiet fxInp1 fxDb1 (fxWo "wo1") (by decide)

/-! ## C4 — reuse of an existing customer found by phone/email -/

def fxJo : CustomerRec := ⟨"c1", "Jo", "Black", "jo@x.com", "555", "", []⟩

def fxC4Db : DB := ⟨[fxJo], [], [fxWo "wo2"], 0⟩

def fxC4Inp : RunInputs := ⟨"wo2", none, some "Jo Black", some "555", none⟩

/-- **C4** (code-bug evidence) — with no supplied customer id and a phone
number matching an existing customer, the lookup finds the customer but the
run never assigns `customer_id` (the only assignment sits inside the dead
`if customer.id is None:` branch, lines 310-313), so the found customer's
id is not linked to the work order; no new customer is created either. -/
theorem C4_found_customer_never_linked :
    CustomerRepository.get_by_phone fxC4Db "555" = some fxJo ∧
    ∃ w, WorkOrderRepository.get_by_id
        (process_uploads fxEnvQuiet fxC4Inp fxC4Db).1 "wo2" = some w ∧
      w.customer_id = none ∧
      (process_uploads fxEnvQuiet fxC4Inp fxC4Db).1.customers =
        fxC4Db.customers := by decide

/-! ## C5 — monotonic mileage on the found-by-VIN path -/

theorem tr_isSome (o : Option String) (h : tr o = true) : o.isSome = true := by
  cases o with
  | none => simp [tr] at h
  | some s => rfl

/-- **C5** — When the resolver finds an existing vehicle by the extracted
VIN (lines 341-354), the stored mileage is updated only when the newly
observed odometer value parses and is numerically greater than the stored
mileage; a lower or unparseable reading (whose `int()` raises, caught at
line 393) leaves the stored mileage unchanged — it never decreases. -/
theorem C5_monotonic_mileage (db : DB) (woVid cid vin odo plate : Option String)
    (vi : VehicleInfoMap) (ev : VehicleRec)
    (hgate : (!tr woVid && tr cid) = true)
    (hvin : tr vin = true)
    (hev : VehicleRepository.get_by_vin db (vin.getD "") = some ev)
    (hid : VehicleRepository.get_by_id db ev.id = some ev) :
    ∃ ev', VehicleRepository.get_by_id
        (vehicleStage db woVid cid vin odo plate vi).2.1 ev.id = some ev' ∧
      ev'.mileage.getD 0 ≥ ev.mileage.getD 0 ∧
      (ev'.mileage ≠ ev.mileage →
        ∃ m, pyInt (odo.getD "") = some m ∧ m > ev.mileage.getD 0 ∧
          ev'.mileage = some m) := by
  unfold vehicleStage
  simp only [hgate, hvin, hev, if_true]
  by_cases hodo : tr odo = true
  · simp only [hodo, if_true]
    cases hpi : pyInt (odo.getD "") with
    | none =>
      exact ⟨ev, hid, le_refl _, fun h => absurd rfl h⟩
    | some m =>
      by_cases hgt : m > ev.mileage.getD 0
      · simp only [hgt, if_true]
        have hne : VehPatch.nonempty
            { plate := if tr plate then plate else none,
              mileage := some m } = true := by
          unfold VehPatch.nonempty
          simp
        simp only [hne, if_true]
        rw [getVeh_update, hid]
        refine ⟨_, rfl, ?_, fun _ => ⟨m, rfl, hgt, ?_⟩⟩
        · show (VehPatch.apply _ ev).mileage.getD 0 ≥ ev.mileage.getD 0
          unfold VehPatch.apply
          simp only [Option.getD_some]
          omega
        · unfold VehPatch.apply
          rfl
      · simp only [hgt, if_false]
        by_cases hpl : tr plate = true
        · have hne : VehPatch.nonempty
              { plate := if tr plate then plate else none,
                mileage := none } = true := by
            unfold VehPatch.nonempty
            simp [hpl, tr_isSome plate hpl]
          simp only [hne, if_true]
          rw [getVeh_update, hid]
          refine ⟨_, rfl, ?_, fun h => absurd ?_ h⟩
          · show (VehPatch.apply _ ev).mileage.getD 0 ≥ ev.mileage.getD 0
            unfold VehPatch.apply
            exact le_refl _
          · unfold VehPatch.apply
            rfl
        · have hne : VehPatch.nonempty
              { plate := if tr plate then plate else none,
                mileage := none } = false := by
            unfold VehPatch.nonempty
            simp [hpl]
          simp only [hne, Bool.false_eq_true, if_false]
          exact ⟨ev, hid, le_refl _, fun h => absurd rfl h⟩
  · simp only [hodo, Bool.false_eq_true, if_false]
    by_cases hpl : tr plate = true
    · have hne : VehPatch.nonempty
          { plate := if tr plate then plate else none,
            mileage := none } = true := by
        unfold VehPatch.nonempty
        simp [hpl, tr_isSome plate hpl]
      simp only [hne, if_true]
      rw [getVeh_update, hid]
      refine ⟨_, rfl, ?_, fun h => absurd ?_ h⟩
      · show (VehPatch.apply _ ev).mileage.getD 0 ≥ ev.mileage.getD 0
        unfold VehPatch.apply
        exact le_refl _
      · unfold VehPatch.apply
        rfl
    · have hne : VehPatch.nonempty
          { plate := if tr plate then plate else none,
            mileage := none } = false := by
        unfold VehPatch.nonempty
        simp [hpl]
      simp only [hne, Bool.false_eq_true, if_false]
      exact ⟨ev, hid, le_refl _, fun h => absurd rfl h⟩

/-- Witness for C5: an existing vehicle with mileage 50000 resolved with a
lower odometer reading 40000 keeps mileage 50000. -/
def fxVehicle : VehicleRec :=
  ⟨"v1", some "c1", some "1HGCM82633A004352", none, none, none,
   some 50000, none⟩

def fxC5Db : DB := ⟨[], [fxVehicle], [], 0⟩

theorem C5_monotonic_mileage_witness :
    ∃ ev', VehicleRepository.get_by_id
        (vehicleStage fxC5Db none (some "c1") (some "1HGCM82633A004352")
          (some "40000") none []).2.1 fxVehicle.id = some ev' ∧
      ev'.mileage.getD 0 ≥ fxVehicle.mileage.getD 0 ∧
      (ev'.mileage ≠ fxVehicle.mileage →
        ∃ m, pyInt ((some "40000" : Option String).getD "") = some m ∧
          m > fxVehicle.mileage.getD 0 ∧ ev'.mileage = some m) :=
  C5_monotonic_mileage fxC5Db none (some "c1") (some "1HGCM82633A004352")
    (some "40000") none [] fxVehicle (by decide) (by decide) (by decide)
    (by decide)

/-! ## C6 — audio transcription and summary synthesis -/

theorem clipTranscript_ne_empty (c : ClipEnv) (t : String)
    (h : clipTranscript c = some t) : t ≠ "" := by
  unfold clipTranscript at h
  repeat' split at h
  all_goals try simp_all
  exact fun ht => h.1 (h.2.trans ht)

theorem pyJoin_space_ne_empty :
    ∀ ts : List String, (∀ t ∈ ts, t ≠ "") → ts ≠ [] → pyJoin " " ts ≠ ""
  | [], _, hne => absurd rfl hne
  | [a], h, _ => by simpa [pyJoin] using h a (by simp)
  | a :: b :: rest, h, _ => by
    have ha : a ≠ "" := h a (by simp)
    intro hc
    apply ha
    have hdata : (a ++ " " ++ pyJoin " " (b :: rest)).data = [] :=
      congrArg String.data hc
    rw [String.data_append, String.data_append] at hdata
    rcases List.append_eq_nil.mp hdata with ⟨h1, _⟩
    rcases List.append_eq_nil.mp h1 with ⟨h2, _⟩
    apply String.ext
    rw [h2]

/-- **C6** — Audio clips are transcribed independently, in submission
order; a failed or empty transcription contributes nothing and does not
abort the remaining clips (the transcript list is exactly the in-order
`filterMap` of per-clip outcomes); non-empty transcripts are joined with a
single space; and the summary-synthesis adapter is invoked iff the full
transcript is non-empty. -/
theorem C6_audio_transcription_and_summary (env : RunEnv) (inp : RunInputs)
    (db0 : DB) (wo : WorkOrderRec)
    (hwo : WorkOrderRepository.get_by_id db0 inp.orderId = some wo)
    (hr : runRaises env inp db0 = false) :
    (process_uploads env inp db0).2.transcripts
        = env.clips.filterMap clipTranscript ∧
    (process_uploads env inp db0).2.fullTranscript
        = pyJoin " " (env.clips.filterMap clipTranscript) ∧
    ((process_uploads env inp db0).2.summaryCalled = true ↔
      (process_uploads env inp db0).2.transcripts ≠ []) ∧
    ((process_uploads env inp db0).2.summaryCalled = true ↔
      (process_uploads env inp db0).2.fullTranscript ≠ "") := by
  cases hcs : customerStage (WorkOrderRepository.update db0 inp.orderId runStartU)
      inp.customerId inp.customerName inp.customerPhone inp.customerEmail with
  | error m =>
    exfalso
    unfold runRaises at hr
    rw [hcs] at hr
    simp at hr
  | ok rc =>
  have haud : audioRaises env = false := by
    unfold runRaises at hr
    rw [hcs] at hr
    simpa using hr
  rw [run_log_ok env inp db0 wo rc hwo hcs haud]
  refine ⟨rfl, rfl, ?_, ?_⟩
  · show (!(env.clips.filterMap clipTranscript).isEmpty) = true
        ↔ env.clips.filterMap clipTranscript ≠ []
    simp
  · show (!(env.clips.filterMap clipTranscript).isEmpty) = true
        ↔ pyJoin " " (env.clips.filterMap clipTranscript) ≠ ""
    constructor
    · intro h
      apply pyJoin_space_ne_empty
      · intro t ht
        rcases List.mem_filterMap.mp ht with ⟨c, _, hc⟩
        exact clipTranscript_ne_empty c t hc
      · simpa using h
    · intro h
      by_contra hb
      have hnil : env.clips.filterMap clipTranscript = [] := by
        simpa using hb
      rw [hnil] at h
      exact h rfl

/-- Two clips transcribing to `"foo"` and `"bar"`. -/
def fxClipFoo : ClipEnv := ⟨true, none, true, .resp 200 (some "foo")⟩

def fxClipBar : ClipEnv := ⟨true, none, true, .resp 200 (some "bar")⟩

def fxEnvAudio : RunEnv :=
  ⟨fxNoVin, fxNoImg, fxNoImg, [fxClipFoo, fxClipBar], none, fxSummary⟩

/-- Witness for C6, including the §8 instance: clips `"foo"`, `"bar"` yield
exactly the full transcript `"foo bar"`. -/
theorem C6_audio_transcription_and_summary_witness :
    ((process_uploads fxEnvAudio fxInp1 fxDb1).2.transcripts
        = fxEnvAudio.clips.filterMap clipTranscript ∧
      (process_uploads fxEnvAudio fxInp1 fxDb1).2.fullTranscript
        = pyJoin " " (fxEnvAudio.clips.filterMap clipTranscript) ∧
      ((process_uploads fxEnvAudio fxInp1 fxDb1).2.summaryCalled = true ↔
        (process_uploads fxEnvAudio fxInp1 fxDb1).2.transcripts ≠ []) ∧
      ((process_uploads fxEnvAudio fxInp1 fxDb1).2.summaryCalled = true ↔
        (process_uploads fxEnvAudio fxInp1 fxDb1).2.fullTranscript ≠ "")) ∧
    (process_uploads fxEnvAudio fxInp1 fxDb1).2.fullTranscript = "foo bar" :=
  ⟨C6_audio_transcription_and_summary fxEnvAudio fxInp1 fxDb1 (fxWo "wo1")
      (by decide) (by decide),
   by decide⟩

/-! ## C7 — idempotence of vehicle resolution -/

theorem find?_append_of_none {α : Type} (p : α → Bool) (l₁ l₂ : List α)
    (h : l₁.find? p = none) : (l₁ ++ l₂).find? p = l₂.find? p := by
  induction l₁ with
  | nil => rfl
  | cons a t ih =>
    cases hpa : p a with
    | true =>
      rw [List.find?_cons_of_pos _ hpa] at h
      exact absurd h (by simp)
    | false =>
      rw [List.find?_cons_of_neg _ (by simp [hpa])] at h
      rw [List.cons_append, List.find?_cons_of_neg _ (by simp [hpa]), ih h]

theorem vehCreate_vehicles (db : DB) (v : VehicleRec) :
    (VehicleRepository.create db v).2.vehicles = db.vehicles ++ [v] := by
  unfold VehicleRepository.create
  dsimp only
  split
  all_goals rfl

theorem vehUpdate_vehicles_length (db : DB) (vid : String) (p : VehPatch) :
    (VehicleRepository.update db vid p).vehicles.length
      = db.vehicles.length := by
  unfold VehicleRepository.update
  exact List.length_map _ _

/-- The resolver's create path (lines 355-373): no vehicle has the VIN yet,
so a fresh row holding the VIN, the decoded attributes currently in the
map, the odometer reading and the plate is inserted, and its id is the
resolved vehicle id. -/
theorem vehicleStage_create (db : DB) (cid vin odo plate : Option String)
    (vi : VehicleInfoMap)
    (hcid : tr cid = true) (hvin : tr vin = true)
    (hnew : VehicleRepository.get_by_vin db (vin.getD "") = none) :
    (vehicleStage db none cid vin odo plate vi).1
        = some ("uuid-" ++ toString db.nextId) ∧
    (vehicleStage db none cid vin odo plate vi).2.1.vehicles
        = db.vehicles ++
          [⟨"uuid-" ++ toString db.nextId, cid, vin, viGet vi "year",
            viGet vi "make", viGet vi "model", pyInt (odo.getD ""), plate⟩] := by
  unfold vehicleStage
  have hgate : (!tr (none : Option String) && tr cid) = true := by
    have hn : tr (none : Option String) = false := rfl
    rw [hn, Bool.not_false, Bool.true_and]
    exact hcid
  simp only [hgate, hvin, hnew, if_true]
  refine ⟨rfl, ?_⟩
  rw [vehCreate_vehicles]
  exact rfl

/-- The resolver's found path (lines 343-354): the id of the row found by
VIN is the resolved vehicle id — assigned before the mileage comparison can
raise — and no row is added or removed. -/
theorem vehicleStage_found (db : DB) (cid vin odo plate : Option String)
    (vi : VehicleInfoMap) (ev : VehicleRec)
    (hcid : tr cid = true) (hvin : tr vin = true)
    (hev : VehicleRepository.get_by_vin db (vin.getD "") = some ev) :
    (vehicleStage db none cid vin odo plate vi).1 = some ev.id ∧
    (vehicleStage db none cid vin odo plate vi).2.1.vehicles.length
        = db.vehicles.length := by
  unfold vehicleStage
  have hgate : (!tr (none : Option String) && tr cid) = true := by
    have hn : tr (none : Option String) = false := rfl
    rw [hn, Bool.not_false, Bool.true_and]
    exact hcid
  simp only [hgate, hvin, hev, if_true]
  by_cases hodo : tr odo = true
  · simp only [hodo, if_true]
    cases hpo : pyInt (odo.getD "") with
    | none => exact ⟨rfl, rfl⟩
    | some m =>
      dsimp only
      constructor
      · rfl
      · repeat' split
        all_goals first
          | rfl
          | exact vehUpdate_vehicles_length _ _ _
  · simp only [hodo, Bool.false_eq_true, if_false]
    constructor
    · trivial
    · repeat' split
      all_goals first
        | rfl
        | exact vehUpdate_vehicles_length _ _ _

/-- **C7** — Running the resolver twice with the same extracted VIN, the
second run's get-by-VIN lookup finds the row the first run created, yields
the same vehicle id, and adds no duplicate row. -/
theorem C7_vehicle_resolution_idempotent (db : DB)
    (cid vin odo1 plate1 odo2 plate2 : Option String)
    (vi1 vi2 : VehicleInfoMap)
    (hcid : tr cid = true) (hvin : tr vin = true)
    (hnew : VehicleRepository.get_by_vin db (vin.getD "") = none) :
    ∃ newId,
      (vehicleStage db none cid vin odo1 plate1 vi1).1 = some newId ∧
      (vehicleStage (vehicleStage db none cid vin odo1 plate1 vi1).2.1
        none cid vin odo2 plate2 vi2).1 = some newId ∧
      (vehicleStage (vehicleStage db none cid vin odo1 plate1 vi1).2.1
        none cid vin odo2 plate2 vi2).2.1.vehicles.length
        = (vehicleStage db none cid vin odo1 plate1 vi1).2.1.vehicles.length := by
  obtain ⟨s, rfl⟩ : ∃ s, vin = some s := by
    cases vin with
    | none => simp [tr] at hvin
    | some s => exact ⟨s, rfl⟩
  obtain ⟨h1, h2⟩ := vehicleStage_create db cid (some s) odo1 plate1 vi1
    hcid hvin hnew
  have hfound : VehicleRepository.get_by_vin
      (vehicleStage db none cid (some s) odo1 plate1 vi1).2.1
      ((some s : Option String).getD "")
      = some ⟨"uuid-" ++ toString db.nextId, cid, some s, viGet vi1 "year",
          viGet vi1 "make", viGet vi1 "model", pyInt (odo1.getD ""),
          plate1⟩ := by
    unfold VehicleRepository.get_by_vin at hnew ⊢
    rw [h2, find?_append_of_none _ _ _ hnew]
    simp
  obtain ⟨h3, h4⟩ := vehicleStage_found
    (vehicleStage db none cid (some s) odo1 plate1 vi1).2.1
    cid (some s) odo2 plate2 vi2 _ hcid hvin hfound
  exact ⟨"uuid-" ++ toString db.nextId, h1, h3, h4⟩

def fxDbEmpty : DB := ⟨[], [], [], 0⟩

/-- Witness for C7: two resolver runs on an initially empty repository. -/
theorem C7_vehicle_resolution_idempotent_witness :
    ∃ newId,
      (vehicleStage fxDbEmpty none (some "c1") (some "1HGCM82633A004352")
        none none []).1 = some newId ∧
      (vehicleStage
        (vehicleStage fxDbEmpty none (some "c1") (some "1HGCM82633A004352")
          none none []).2.1
        none (some "c1") (some "1HGCM82633A004352") none none []).1
        = some newId ∧
      (vehicleStage
        (vehicleStage fxDbEmpty none (some "c1") (some "1HGCM82633A004352")
          none none []).2.1
        none (some "c1") (some "1HGCM82633A004352") none none
        []).2.1.vehicles.length
        = (vehicleStage fxDbEmpty none (some "c1") (some "1HGCM82633A004352")
          none none []).2.1.vehicles.length :=
  C7_vehicle_resolution_idempotent fxDbEmpty (some "c1")
    (some "1HGCM82633A004352") none none none none [] []
    (by decide) (by decide) (by decide)

/-! ## C9 — intake coordinator -/

/-- The terminal statuses of spec §3/§4.5 (`pending` and `processing` are
the non-terminal ones).  Modelled from the spec: the status enumeration is
only partially visible in the sources. -/
def terminalStatuses : List String := ["processed", "needs_review", "error"]

theorem getWO_create_fresh (db : DB) (w : WorkOrderRec)
    (hfresh : WorkOrderRepository.get_by_id db w.id = none) :
    WorkOrderRepository.get_by_id (WorkOrderRepository.create db w) w.id
      = some w := by
  unfold WorkOrderRepository.get_by_id at hfresh ⊢
  unfold WorkOrderRepository.create
  rw [find?_append_of_none _ _ _ hfresh]
  simp

/-- **C9** — Intake is fail-fast and non-blocking: a failed persist of the
initial record yields an HTTP error response, no scheduled task and an
unchanged repository; a successful intake returns the fresh order id
immediately, persists an initial record with an empty vehicle-attributes
map and the non-terminal status `processing`, and schedules the background
task with copies of all payload bytes (read before scheduling). -/
theorem C9_intake_fail_fast_non_blocking (env : IntakeEnv) (inp : IntakeInputs)
    (db : DB)
    (hfresh : WorkOrderRepository.get_by_id db env.newOrderId = none) :
    ((env.createErr.isSome = true →
      (∃ e, (create_work_order env inp db).response = .error e) ∧
      (create_work_order env inp db).task = none ∧
      (create_work_order env inp db).db = db) ∧
    (∀ oid, (create_work_order env inp db).response = .ok oid →
      oid = env.newOrderId ∧
      (∃ w, WorkOrderRepository.get_by_id (create_work_order env inp db).db
          env.newOrderId = some w ∧
        w.vehicle_info = [] ∧
        w.status = "processing" ∧
        w.status ∉ terminalStatuses) ∧
      (∃ t, (create_work_order env inp db).task = some t ∧
        t.orderId = env.newOrderId ∧
        t.audioContents = inp.audioFiles.map (Option.map Prod.fst) ∧
        t.vinContent = inp.vinImage.map Prod.fst ∧
        t.odometerContent = inp.odometerImage.map Prod.fst ∧
        t.plateContent = inp.plateImage.map Prod.fst))) := by
  unfold create_work_order
  dsimp only
  constructor
  · intro hce
    split
    · constructor
      · exact ⟨_, rfl⟩
      · exact ⟨by trivial, by trivial⟩
    · split
      · constructor
        · exact ⟨_, rfl⟩
        · exact ⟨by trivial, by trivial⟩
      · cases hc : env.createErr with
        | none => rw [hc] at hce; cases hce
        | some m =>
          simp only [hc]
          constructor
          · exact ⟨_, rfl⟩
          · exact ⟨by trivial, by trivial⟩
  · intro oid hok
    split at hok
    · cases hok
    · split at hok
      · cases hok
      · cases hc : env.createErr with
        | some m => rw [hc] at hok; cases hok
        | none =>
          rw [hc] at hok
          cases hok
          dsimp only
          exact ⟨by trivial,
            ⟨_, getWO_create_fresh db _ hfresh, by trivial, by trivial,
              by show ("processing" : String) ∉ terminalStatuses; decide⟩,
            ⟨_, by trivial, by trivial, by trivial, by trivial, by trivial,
              by trivial⟩⟩

def fxIntakeEnv : IntakeEnv := ⟨"wo9", none⟩

/-- Witness for C9: the §8 intake against an empty repository. -/
theorem C9_intake_fail_fast_non_blocking_witness :
    ((fxIntakeEnv.createErr.isSome = true →
      (∃ e, (create_work_order fxIntakeEnv fxJaneIntake fxDbEmpty).response
          = .error e) ∧
      (create_work_order fxIntakeEnv fxJaneIntake fxDbEmpty).task = none ∧
      (create_work_order fxIntakeEnv fxJaneIntake fxDbEmpty).db = fxDbEmpty) ∧
    (∀ oid,
      (create_work_order fxIntakeEnv fxJaneIntake fxDbEmpty).response
          = .ok oid →
      oid = fxIntakeEnv.newOrderId ∧
      (∃ w, WorkOrderRepository.get_by_id
          (create_work_order fxIntakeEnv fxJaneIntake fxDbEmpty).db
          fxIntakeEnv.newOrderId = some w ∧
        w.vehicle_info = [] ∧
        w.status = "processing" ∧
        w.status ∉ terminalStatuses) ∧
      (∃ t, (create_work_order fxIntakeEnv fxJaneIntake fxDbEmpty).task
          = some t ∧
        t.orderId = fxIntakeEnv.newOrderId ∧
        t.audioContents = fxJaneIntake.audioFiles.map (Option.map Prod.fst) ∧
        t.vinContent = fxJaneIntake.vinImage.map Prod.fst ∧
        t.odometerContent = fxJaneIntake.odometerImage.map Prod.fst ∧
        t.plateContent = fxJaneIntake.plateImage.map Prod.fst))) :=
  C9_intake_fail_fast_non_blocking fxIntakeEnv fxJaneIntake fxDbEmpty
    (by decide)

/-! ## C10 — the unbound `vehicle_data` path -/

theorem find?_append_of_some {α : Type} (p : α → Bool) (l₁ l₂ : List α)
    (a : α) (h : l₁.find? p = some a) : (l₁ ++ l₂).find? p = some a := by
  induction l₁ with
  | nil => cases h
  | cons x t ih =>
    cases hpx : p x with
    | true =>
      rw [List.find?_cons_of_pos _ hpx] at h
      rw [List.cons_append, List.find?_cons_of_pos _ hpx]
      exact h
    | false =>
      rw [List.find?_cons_of_neg _ (by simp [hpx])] at h
      rw [List.cons_append, List.find?_cons_of_neg _ (by simp [hpx]), ih h]

theorem viGet_map_ne (m : VehicleInfoMap) (k k' v : String) (h : ¬ k' = k) :
    viGet (m.map (fun p => if p.1 = k then (k, v) else p)) k' = viGet m k' := by
  unfold viGet
  induction m with
  | nil => rfl
  | cons p t ih =>
    by_cases h1 : p.1 = k
    · rw [List.map_cons, if_pos h1]
      rw [List.find?_cons_of_neg _
          (by simp only [decide_eq_true_eq]; exact fun hh => h hh.symm),
        List.find?_cons_of_neg _
          (by simp only [decide_eq_true_eq, h1]; exact fun hh => h hh.symm)]
      exact ih
    · rw [List.map_cons, if_neg h1]
      by_cases h2 : p.1 = k'
      · rw [List.find?_cons_of_pos _ (by simp [h2]),
          List.find?_cons_of_pos _ (by simp [h2])]
      · rw [List.find?_cons_of_neg _ (by simp [h2]),
          List.find?_cons_of_neg _ (by simp [h2])]
        exact ih

theorem viGet_append_single_ne (m : VehicleInfoMap) (k k' v : String)
    (h : ¬ k' = k) : viGet (m ++ [(k, v)]) k' = viGet m k' := by
  unfold viGet
  cases hf : m.find? (fun p => p.1 = k') with
  | some q => rw [find?_append_of_some _ _ _ _ hf]
  | none =>
    rw [find?_append_of_none _ _ _ hf, List.find?_cons_of_neg _
        (by simp only [decide_eq_true_eq]; exact fun hh => h hh.symm)]
    rfl

theorem viGet_set_ne (m : VehicleInfoMap) (k k' v : String) (h : ¬ k' = k) :
    viGet (viSet m k v) k' = viGet m k' := by
  unfold viSet
  split
  · exact viGet_map_ne m k k' v h
  · exact viGet_append_single_ne m k k' v h

theorem vinStage_viGet (e : VinEnv) (vi : VehicleInfoMap) (key : String)
    (h : ¬ key = "vin") :
    viGet (vinStage e vi).2.1 key = viGet vi key := by
  unfold vinStage
  dsimp only
  repeat' split
  all_goals first
    | rfl
    | exact viGet_set_ne vi "vin" key _ h
    | · rename_i ymm heq
        cases hre : e.registry
        all_goals rw [hre] at heq
        all_goals simp [get_year_make_model] at heq

theorem odoStage_viGet (e : ImgEnv) (vi : VehicleInfoMap) (key : String)
    (h : ¬ key = "mileage") :
    viGet (odoStage e vi).2.1 key = viGet vi key := by
  unfold odoStage
  dsimp only
  repeat' split
  all_goals first
    | rfl
    | exact viGet_set_ne vi "mileage" key _ h

theorem plateStage_viGet (e : ImgEnv) (vi : VehicleInfoMap) (key : String)
    (h : ¬ key = "plate") :
    viGet (plateStage e vi).2.1 key = viGet vi key := by
  unfold plateStage
  dsimp only
  repeat' split
  all_goals first
    | rfl
    | exact viGet_set_ne vi "plate" key _ h

/-- With a supplied (truthy) customer id the customer block of lines
298-331 is skipped entirely. -/
theorem customerStage_skip (db : DB) (cid cname cphone cemail : Option String)
    (hcid : tr cid = true) :
    customerStage db cid cname cphone cemail = .ok (cid, db) := by
  unfold customerStage
  simp [hcid]

/-- The no-VIN, no-make/model path of lines 374-398: `vehicle_data` is
never assigned, the `VehicleRepository.create` call of line 388 raises
`UnboundLocalError`, the handler at line 393 appends the
`Vehicle creation error` note, and no vehicle is created or linked. -/
theorem vehicleStage_unbound (db : DB) (cid vin odo plate : Option String)
    (vi : VehicleInfoMap)
    (hcid : tr cid = true) (hvin : tr vin = false)
    (hmk : viGet vi "make" = none) (hmd : viGet vi "model" = none) :
    vehicleStage db none cid vin odo plate vi
      = (none, db,
        ["Vehicle creation error: " ++ take100 unboundVehicleData]) := by
  unfold vehicleStage
  have hgate : (!tr (none : Option String) && tr cid) = true := by
    have hn : tr (none : Option String) = false := rfl
    rw [hn, Bool.not_false, Bool.true_and]
    exact hcid
  simp only [hgate, if_true, hvin, Bool.false_eq_true, if_false]
  rw [hmk, hmd]
  simp [tr]

/-- **C10** — In a run with no extracted VIN, no pre-supplied vehicle id, a
resolved (supplied) customer id, and a map without make or model, no
vehicle row is created and none is linked; the create call degrades to a
caught `UnboundLocalError` whose note begins `Vehicle creation error`, and
the rest of the run proceeds (audio is processed, the final status is
written as `needs_review`). -/
theorem C10_unbound_vehicle_data_soft_failure (env : RunEnv) (inp : RunInputs)
    (db0 : DB) (wo : WorkOrderRec)
    (hwo : WorkOrderRepository.get_by_id db0 inp.orderId = some wo)
    (hcid : tr inp.customerId = true)
    (hwovid : wo.vehicle_id = none)
    (hnovin : tr (vinStage env.vin wo.vehicle_info).1 = false)
    (hmk : viGet wo.vehicle_info "make" = none)
    (hmd : viGet wo.vehicle_info "model" = none)
    (haud : audioRaises env = false) :
    (process_uploads env inp db0).1.vehicles = db0.vehicles ∧
    ∃ w, WorkOrderRepository.get_by_id (process_uploads env inp db0).1
        inp.orderId = some w ∧
      w.vehicle_id = none ∧
      ("Vehicle creation error: " ++ take100 unboundVehicleData)
        ∈ w.processing_notes ∧
      w.status = "needs_review" ∧
      (process_uploads env inp db0).2.transcripts
        = env.clips.filterMap clipTranscript := by
  have hmk3 : viGet (plateStage env.plate
      (odoStage env.odo (vinStage env.vin wo.vehicle_info).2.1).2.1).2.1
      "make" = none := by
    rw [plateStage_viGet _ _ _ (by decide), odoStage_viGet _ _ _ (by decide),
      vinStage_viGet _ _ _ (by decide), hmk]
  have hmd3 : viGet (plateStage env.plate
      (odoStage env.odo (vinStage env.vin wo.vehicle_info).2.1).2.1).2.1
      "model" = none := by
    rw [plateStage_viGet _ _ _ (by decide), odoStage_viGet _ _ _ (by decide),
      vinStage_viGet _ _ _ (by decide), hmd]
  constructor
  · unfold process_uploads
    rw [hwo]
    unfold runCore
    dsimp only
    rw [customerStage_skip _ _ _ _ _ hcid]
    dsimp only
    rw [hwovid, vehicleStage_unbound _ _ _ _ _ _ hcid hnovin hmk3 hmd3]
    simp only [haud, Bool.false_eq_true, if_false]
    rfl
  · refine ⟨runRecord env inp wo db0, run_getWO env inp db0 wo hwo,
      ?_, ?_, ?_, ?_⟩
    · unfold runRecord
      dsimp only
      rw [customerStage_skip _ _ _ _ _ hcid]
      dsimp only
      rw [hwovid, vehicleStage_unbound _ _ _ _ _ _ hcid hnovin hmk3 hmd3]
      dsimp only
      simp only [hcid, Bool.true_or, if_true, haud, Bool.false_eq_true,
        if_false]
      unfold finalU
      split
      · show wo.vehicle_id = none
        exact hwovid
      · show wo.vehicle_id = none
        exact hwovid
    · unfold runRecord
      dsimp only
      rw [customerStage_skip _ _ _ _ _ hcid]
      dsimp only
      rw [hwovid, vehicleStage_unbound _ _ _ _ _ _ hcid hnovin hmk3 hmd3]
      dsimp only
      simp only [haud, Bool.false_eq_true, if_false]
      unfold finalU
      split
      · simp [WoUpdate.apply, WoUpdate.none0, List.mem_append]
      · simp [WoUpdate.apply, WoUpdate.none0, List.mem_append]
    · unfold runRecord
      dsimp only
      rw [customerStage_skip _ _ _ _ _ hcid]
      dsimp only
      rw [hwovid, vehicleStage_unbound _ _ _ _ _ _ hcid hnovin hmk3 hmd3]
      dsimp only
      simp only [haud, Bool.false_eq_true, if_false]
      unfold finalU
      have hst : statusReconcile (plateStage env.plate
          (odoStage env.odo (vinStage env.vin wo.vehicle_info).2.1).2.1).2.1
          (none : Option String) = "needs_review" := by
        rw [statusReconcile_eq]
        simp [tr]
      split
      · exact hst
      · exact hst
    · rw [run_log_ok env inp db0 wo
        (inp.customerId, WorkOrderRepository.update db0 inp.orderId runStartU)
        hwo (customerStage_skip _ _ _ _ _ hcid) haud]

def fxC10Db : DB := ⟨[], [], [fxWo "wo3"], 0⟩

def fxC10Inp : RunInputs := ⟨"wo3", some "c1", none, none, none⟩

/-- Witness for C10: a quiet run with a supplied customer id and no VIN. -/
theorem C10_unbound_vehicle_data_soft_failure_witness :
    (process_uploads fxEnvQuiet fxC10Inp fxC10Db).1.vehicles
        = fxC10Db.vehicles ∧
    ∃ w, WorkOrderRepository.get_by_id
        (process_uploads fxEnvQuiet fxC10Inp fxC10Db).1 fxC10Inp.orderId
        = some w ∧
      w.vehicle_id = none ∧
      ("Vehicle creation error: " ++ take100 unboundVehicleData)
        ∈ w.processing_notes ∧
      w.status = "needs_review" ∧
      (process_uploads fxEnvQuiet fxC10Inp fxC10Db).2.transcripts
        = fxEnvQuiet.clips.filterMap clipTranscript :=
  C10_unbound_vehicle_data_soft_failure fxEnvQuiet fxC10Inp fxC10Db
    (fxWo "wo3") (by decide) (by decide) (by decide) (by decide) (by decide)
    (by decide) (by decide)

/-! ## C8 — adapter failure handling -/

/-- A clip whose save step raises: its failure is caught per-clip with no
note appended (lines 447-448). -/
def fxClipFail : ClipEnv := ⟨true, some "disk full", false, .exn "net"⟩

def fxEnvFailClip : RunEnv :=
  ⟨fxNoVin, fxNoImg, fxNoImg, [fxClipFail], none, fxSummary⟩

/-- **C8** counterexample — two failures the claim mis-describes, at
concrete inputs: (a) a 200-response without a recognisable VIN ("no value
detected") makes the VIN adapter return the raw non-empty text, not the
empty value; (b) a run whose only audio clip fails produces exactly the
same processing notes as the same run with no audio at all — the failure
appends no note. -/
theorem C8_counterexample_failures :
    (extract_vin_from_image (.resp 200 (some "unable to read placard"))
        = "unable to read placard" ∧
      extract_vin_from_image (.resp 200 (some "unable to read placard"))
        ≠ "") ∧
    ((WorkOrderRepository.get_by_id
        (process_uploads fxEnvFailClip fxInp1 fxDb1).1 "wo1").isSome = true ∧
      (WorkOrderRepository.get_by_id
        (process_uploads fxEnvFailClip fxInp1 fxDb1).1 "wo1").map
          (fun w => w.processing_notes)
        = (WorkOrderRepository.get_by_id
            (process_uploads fxEnvQuiet fxInp1 fxDb1).1 "wo1").map
          (fun w => w.processing_notes)) := by decide

/-- **C8** (amended) — Failure handling as the code performs it: the four
adapters never raise past their boundary, and network exceptions, non-200
responses and malformed responses all yield the empty value (a 200
response with no recognisable value yields the raw text for the VIN and
odometer adapters); an empty VIN or odometer extraction appends a failure
note, and a caught exception in an image stage appends a note whose
exception text is truncated to 100 characters; but an empty plate
extraction appends only the generic `Plate image processed` note and a
failed audio clip appends nothing — the final notes are independent of the
clips' outcomes. -/
theorem C8_amended_failure_handling :
    (∀ m : String, extract_vin_from_image (.exn m) = ""
      ∧ read_odometer_image (.exn m) = ""
      ∧ extract_license_from_image (.exn m) = ""
      ∧ transcribe_audio (.exn m) = "") ∧
    (∀ (st : Nat) (b : Option String), ¬ st = 200 →
      extract_vin_from_image (.resp st b) = ""
      ∧ read_odometer_image (.resp st b) = ""
      ∧ extract_license_from_image (.resp st b) = ""
      ∧ transcribe_audio (.resp st b) = "") ∧
    (∀ st : Nat, extract_vin_from_image (.resp st none) = ""
      ∧ read_odometer_image (.resp st none) = ""
      ∧ extract_license_from_image (.resp st none) = ""
      ∧ transcribe_audio (.resp st none) = "") ∧
    (∀ content : String, vinScan (pyStrip content) = none →
      extract_vin_from_image (.resp 200 (some content)) = pyStrip content) ∧
    (∀ content : String, dcScanAux (pyStrip content).toList = none →
      read_odometer_image (.resp 200 (some content)) = pyStrip content) ∧
    (∀ (http : HttpOutcome (Option String)) (reg : Option (List RegItem))
        (vi : VehicleInfoMap), extract_vin_from_image http = "" →
      (vinStage ⟨true, none, http, reg⟩ vi).2.2
        = ["VIN image processed",
           "VIN extraction failed - manual entry required"]) ∧
    (∀ (http : HttpOutcome (Option String)) (vi : VehicleInfoMap),
      read_odometer_image http = "" →
      (odoStage ⟨true, none, http⟩ vi).2.2
        = ["Odometer image processed",
           "Odometer extraction failed - manual entry required"]) ∧
    (∀ (m : String) (http : HttpOutcome (Option String))
        (reg : Option (List RegItem)) (vi : VehicleInfoMap),
      (vinStage ⟨true, some m, http, reg⟩ vi).2.2
          = ["VIN error: " ++ take100 m]
      ∧ (odoStage ⟨true, some m, http⟩ vi).2.2
          = ["Odometer error: " ++ take100 m]
      ∧ (plateStage ⟨true, some m, http⟩ vi).2.2
          = ["Plate error: " ++ take100 m]
      ∧ (take100 m).length ≤ 100) ∧
    (∀ (http : HttpOutcome (Option String)) (vi : VehicleInfoMap),
      extract_license_from_image http = "" →
      (plateStage ⟨true, none, http⟩ vi).2.2 = ["Plate image processed"]) ∧
    (∀ (env : RunEnv) (inp : RunInputs) (db0 : DB) (wo : WorkOrderRec)
        (c₁ c₂ : List ClipEnv),
      WorkOrderRepository.get_by_id db0 inp.orderId = some wo →
      env.audioDirErr = none →
      ∃ w₁ w₂,
        WorkOrderRepository.get_by_id
          (process_uploads { env with clips := c₁ } inp db0).1 inp.orderId
          = some w₁ ∧
        WorkOrderRepository.get_by_id
          (process_uploads { env with clips := c₂ } inp db0).1 inp.orderId
          = some w₂ ∧
        w₁.processing_notes = w₂.processing_notes) := by
  refine ⟨fun m => ⟨rfl, rfl, rfl, rfl⟩, ?_, fun st => ?_, ?_, ?_, ?_, ?_, ?_,
    ?_, ?_⟩
  · intro st b hst
    unfold extract_vin_from_image read_odometer_image
      extract_license_from_image transcribe_audio
    simp only [hst, if_false]
    exact ⟨by trivial, by trivial, by trivial, by trivial⟩
  · unfold extract_vin_from_image read_odometer_image
      extract_license_from_image transcribe_audio
    by_cases hst : st = 200
    · simp only [hst]
      exact ⟨by trivial, by trivial, by trivial, by trivial⟩
    · simp only [hst, if_false]
      exact ⟨by trivial, by trivial, by trivial, by trivial⟩
  · intro content hscan
    show (match vinScan (pyStrip content) with
      | some v => v
      | none => pyStrip content) = pyStrip content
    rw [hscan]
  · intro content hscan
    show (match dcScanAux (pyStrip content).toList with
      | some run => String.mk (run.filter (fun c => c ≠ ','))
      | none => pyStrip content) = pyStrip content
    rw [hscan]
  · intro http reg vi hempty
    unfold vinStage
    dsimp only
    rw [hempty]
    simp
  · intro http vi hempty
    unfold odoStage
    dsimp only
    rw [hempty]
    simp
  · intro m http reg vi
    refine ⟨rfl, rfl, rfl, ?_⟩
    show (m.toList.take 100).length ≤ 100
    rw [List.length_take]
    omega
  · intro http vi hempty
    unfold plateStage
    dsimp only
    rw [hempty]
    simp
  · intro env inp db0 wo c₁ c₂ hwo haudio
    refine ⟨runRecord { env with clips := c₁ } inp wo db0,
      runRecord { env with clips := c₂ } inp wo db0,
      run_getWO _ inp db0 wo hwo, run_getWO _ inp db0 wo hwo, ?_⟩
    unfold runRecord
    dsimp only
    cases hcs : customerStage (WorkOrderRepository.update db0 inp.orderId runStartU)
        inp.customerId inp.customerName inp.customerPhone inp.customerEmail with
    | error m => rfl
    | ok rc =>
      dsimp only
      have h1 : audioRaises { env with clips := c₁ } = false := by
        simp [audioRaises, haudio]
      have h2 : audioRaises { env with clips := c₂ } = false := by
        simp [audioRaises, haudio]
      simp only [h1, h2, Bool.false_eq_true, if_false]
      unfold finalU
      repeat' split
      all_goals rfl

/-- Witness for the amended C8, instantiating every part concretely. -/
theorem C8_amended_failure_handling_witness :
    extract_vin_from_image (.exn "network down") = "" ∧
    extract_vin_from_image (.resp 500 (some "oops")) = "" ∧
    transcribe_audio (.resp 200 none) = "" ∧
    extract_vin_from_image (.resp 200 (some "unable to read placard"))
      = pyStrip "unable to read placard" ∧
    read_odometer_image (.resp 200 (some "no reading visible"))
      = pyStrip "no reading visible" ∧
    (vinStage ⟨true, none, .resp 200 (some ""), none⟩ []).2.2
      = ["VIN image processed",
         "VIN extraction failed - manual entry required"] ∧
    (odoStage ⟨true, none, .resp 200 (some "")⟩ []).2.2
      = ["Odometer image processed",
         "Odometer extraction failed - manual entry required"] ∧
    ((vinStage ⟨true, some "boom", .exn "x", none⟩ []).2.2
        = ["VIN error: " ++ take100 "boom"]
      ∧ (odoStage ⟨true, some "boom", .exn "x"⟩ []).2.2
        = ["Odometer error: " ++ take100 "boom"]
      ∧ (plateStage ⟨true, some "boom", .exn "x"⟩ []).2.2
        = ["Plate error: " ++ take100 "boom"]
      ∧ (take100 "boom").length ≤ 100) ∧
    (plateStage ⟨true, none, .resp 200 (some "")⟩ []).2.2
      = ["Plate image processed"] ∧
    (∃ w₁ w₂,
      WorkOrderRepository.get_by_id
        (process_uploads { fxEnvQuiet with clips := [fxClipFail] } fxInp1
          fxDb1).1 fxInp1.orderId = some w₁ ∧
      WorkOrderRepository.get_by_id
        (process_uploads { fxEnvQuiet with clips := [] } fxInp1 fxDb1).1
          fxInp1.orderId = some w₂ ∧
      w₁.processing_notes = w₂.processing_notes) :=
  ⟨(C8_amended_failure_handling.1 "network down").1,
   (C8_amended_failure_handling.2.1 500 (some "oops") (by decide)).1,
   (C8_amended_failure_handling.2.2.1 200).2.2.2,
   C8_amended_failure_handling.2.2.2.1 "unable to read placard" (by decide),
   C8_amended_failure_handling.2.2.2.2.1 "no reading visible" (by decide),
   C8_amended_failure_handling.2.2.2.2.2.1 (.resp 200 (some "")) none []
     (by decide),
   C8_amended_failure_handling.2.2.2.2.2.2.1 (.resp 200 (some "")) []
     (by decide),
   C8_amended_failure_handling.2.2.2.2.2.2.2.1 "boom" (.exn "x") none [],
   C8_amended_failure_handling.2.2.2.2.2.2.2.2.1 (.resp 200 (some "")) []
     (by decide),
   C8_amended_failure_handling.2.2.2.2.2.2.2.2.2 fxEnvQuiet fxInp1 fxDb1
     (fxWo "wo1") [fxClipFail] [] (by decide) rfl⟩
